import Mathlib

/-!
Shallow embedding of the AIDL/legacy audio conversion layer
(media/libaudioclient/AidlConversion.cpp) and proofs about it.

Conventions of the embedding:
* C++ signed 32-bit values (AIDL int32_t fields, legacy int-typed fields) are
  modelled as Int; unsigned 32-bit values (legacy masks, unsigned counters)
  are modelled as Nat.  Where the code performs a static_cast between the two,
  the explicit casts toUnsigned32 / toSigned32 are used.
* ConversionResult is modelled as Option: some = success, none = BAD_VALUE.
  The code collapses all failures to one error value, so Option is faithful.
* C enums are modelled by their underlying integer values; switch statements
  with a fall-through-to-reject default become matches on integer literals
  with a default arm returning none.
* Enum constant values for the wire (AIDL) enums and the legacy platform
  constants come from the AIDL declarations and the platform audio headers,
  which are not part of this source tree; they are recorded in the doc
  comments of the corresponding tables.
-/

namespace AidlConversion

/-- Unsigned 32-bit view of a signed value: static_cast to uint32_t. -/
def toUnsigned32 (x : Int) : Nat := (x % 4294967296).toNat

/-- Signed 32-bit view of an unsigned value: static_cast to int32_t. -/
def toSigned32 (n : Nat) : Int := if n < 2147483648 then (n : Int) else (n : Int) - 4294967296

/-- Range-checked integral conversion from a signed value to unsigned int
(convertIntegral with an unsigned 32-bit destination). -/
def convertIntegral_int32_uint (x : Int) : Option Nat :=
  if 0 ≤ x ∧ x < 4294967296 then some x.toNat else none

/-- Range-checked integral conversion from an unsigned value to int32_t
(convertIntegral with a signed 32-bit destination). -/
def convertIntegral_uint_int32 (n : Nat) : Option Int :=
  if n < 2147483648 then some (n : Int) else none

/-- The generic bitmask transcoder loop (the while loop of convertBitmask).
The source mask is viewed as an unsigned integer; while bits remain, the
current lowest bit, when set, is decoded via srcIndexToEnum, converted with
enumConversion (failure aborts the whole conversion), mapped to a destination
mask via destEnumToMask and ORed into the accumulator. -/
def convertBitmaskLoop {SrcEnum DestEnum : Type}
    (enumConversion : SrcEnum → Option DestEnum)
    (srcIndexToEnum : Nat → SrcEnum)
    (destEnumToMask : DestEnum → Nat)
    (usrc srcBitIndex dest : Nat) : Option Nat :=
  if h : usrc = 0 then some dest
  else
    if usrc % 2 = 1 then
      match enumConversion (srcIndexToEnum srcBitIndex) with
      | none => none
      | some destEnum =>
          convertBitmaskLoop enumConversion srcIndexToEnum destEnumToMask
            (usrc >>> 1) (srcBitIndex + 1) (dest ||| destEnumToMask destEnum)
    else
      convertBitmaskLoop enumConversion srcIndexToEnum destEnumToMask
        (usrc >>> 1) (srcBitIndex + 1) dest
termination_by usrc
decreasing_by
  all_goals simp only [Nat.shiftRight_eq_div_pow, Nat.pow_one]; omega

/-- The generic bitmask transcoder convertBitmask: runs the loop from bit
index 0 with an all-clear accumulator. -/
def convertBitmask {SrcEnum DestEnum : Type}
    (src : Nat)
    (enumConversion : SrcEnum → Option DestEnum)
    (srcIndexToEnum : Nat → SrcEnum)
    (destEnumToMask : DestEnum → Nat) : Option Nat :=
  convertBitmaskLoop enumConversion srcIndexToEnum destEnumToMask src 0 0

/-- index2enum_index: decodes a bit index as an index-based enum value. -/
def index2enum_index (index : Nat) : Int := (index : Int)

/-- index2enum_bitmask: decodes a bit index as a mask-based enum value
(1 << index). -/
def index2enum_bitmask (index : Nat) : Int := ((1 <<< index : Nat) : Int)

/-- enumToMask_bitmask: a mask-based enum value is itself the mask (viewed
unsigned). -/
def enumToMask_bitmask (e : Int) : Nat := toUnsigned32 e

/-- enumToMask_index: an index-based enum value denotes the mask with the
single bit at that index (unsigned 1 shifted left by the enum value). -/
def enumToMask_index (e : Int) : Nat := 1 <<< e.toNat

/-!
Enum conversion tables.  Each direction of each pair is the switch statement
of the source, with the symbolic constants replaced by their integer values.
Wire-side (AIDL) enum values are the declaration-order indices of the AIDL
enums (modelled from the AIDL files, which are outside this source tree);
legacy values are the platform audio header constants.
-/

/-- Wire AudioPortConfigType (SAMPLE_RATE 0, CHANNEL_MASK 1, FORMAT 2, GAIN 3,
FLAGS 4) to legacy AUDIO_PORT_CONFIG_* mask constants (0x1, 0x2, 0x4, 0x8,
0x10).  The source table has no case for GAIN in either direction. -/
def aidl2legacy_AudioPortConfigType (aidl : Int) : Option Int :=
  match aidl with
  | 0 => some 1      -- SAMPLE_RATE → AUDIO_PORT_CONFIG_SAMPLE_RATE
  | 1 => some 2      -- CHANNEL_MASK → AUDIO_PORT_CONFIG_CHANNEL_MASK
  | 2 => some 4      -- FORMAT → AUDIO_PORT_CONFIG_FORMAT
  | 4 => some 16     -- FLAGS → AUDIO_PORT_CONFIG_FLAGS
  | _ => none

/-- Legacy AUDIO_PORT_CONFIG_* mask constants to wire AudioPortConfigType. -/
def legacy2aidl_AudioPortConfigType (legacy : Int) : Option Int :=
  match legacy with
  | 1 => some 0      -- AUDIO_PORT_CONFIG_SAMPLE_RATE → SAMPLE_RATE
  | 2 => some 1      -- AUDIO_PORT_CONFIG_CHANNEL_MASK → CHANNEL_MASK
  | 4 => some 2      -- AUDIO_PORT_CONFIG_FORMAT → FORMAT
  | 16 => some 4     -- AUDIO_PORT_CONFIG_FLAGS → FLAGS
  | _ => none

/-- Wire AudioIoConfigEvent (0..8 in declaration order) to the legacy
audio_io_config_event enum (0..8 in declaration order). -/
def aidl2legacy_AudioIoConfigEvent_audio_io_config_event (aidl : Int) : Option Int :=
  match aidl with
  | 0 => some 0      -- OUTPUT_REGISTERED
  | 1 => some 1      -- OUTPUT_OPENED
  | 2 => some 2      -- OUTPUT_CLOSED
  | 3 => some 3      -- OUTPUT_CONFIG_CHANGED
  | 4 => some 4      -- INPUT_REGISTERED
  | 5 => some 5      -- INPUT_OPENED
  | 6 => some 6      -- INPUT_CLOSED
  | 7 => some 7      -- INPUT_CONFIG_CHANGED
  | 8 => some 8      -- CLIENT_STARTED
  | _ => none

/-- Legacy audio_io_config_event to wire AudioIoConfigEvent. -/
def legacy2aidl_audio_io_config_event_AudioIoConfigEvent (legacy : Int) : Option Int :=
  match legacy with
  | 0 => some 0
  | 1 => some 1
  | 2 => some 2
  | 3 => some 3
  | 4 => some 4
  | 5 => some 5
  | 6 => some 6
  | 7 => some 7
  | 8 => some 8
  | _ => none

/-- Wire AudioPortRole (NONE 0, SOURCE 1, SINK 2) to legacy audio_port_role_t
(AUDIO_PORT_ROLE_NONE 0, AUDIO_PORT_ROLE_SOURCE 1, AUDIO_PORT_ROLE_SINK 2). -/
def aidl2legacy_AudioPortRole_audio_port_role_t (aidl : Int) : Option Int :=
  match aidl with
  | 0 => some 0
  | 1 => some 1
  | 2 => some 2
  | _ => none

/-- Legacy audio_port_role_t to wire AudioPortRole. -/
def legacy2aidl_audio_port_role_t_AudioPortRole (legacy : Int) : Option Int :=
  match legacy with
  | 0 => some 0
  | 1 => some 1
  | 2 => some 2
  | _ => none

/-- Wire AudioPortType (NONE 0, DEVICE 1, MIX 2, SESSION 3) to legacy
audio_port_type_t (same numbering in the platform header). -/
def aidl2legacy_AudioPortType_audio_port_type_t (aidl : Int) : Option Int :=
  match aidl with
  | 0 => some 0
  | 1 => some 1
  | 2 => some 2
  | 3 => some 3
  | _ => none

/-- Legacy audio_port_type_t to wire AudioPortType. -/
def legacy2aidl_audio_port_type_t_AudioPortType (legacy : Int) : Option Int :=
  match legacy with
  | 0 => some 0
  | 1 => some 1
  | 2 => some 2
  | 3 => some 3
  | _ => none

/-- Wire AudioGainMode (JOINT 0, CHANNELS 1, RAMP 2) to legacy
AUDIO_GAIN_MODE_* mask constants (0x1, 0x2, 0x4). -/
def aidl2legacy_AudioGainMode_int (aidl : Int) : Option Int :=
  match aidl with
  | 0 => some 1      -- JOINT → AUDIO_GAIN_MODE_JOINT
  | 1 => some 2      -- CHANNELS → AUDIO_GAIN_MODE_CHANNELS
  | 2 => some 4      -- RAMP → AUDIO_GAIN_MODE_RAMP
  | _ => none

/-- Legacy AUDIO_GAIN_MODE_* mask constants to wire AudioGainMode. -/
def legacy2aidl_int_AudioGainMode (legacy : Int) : Option Int :=
  match legacy with
  | 1 => some 0
  | 2 => some 1
  | 4 => some 2
  | _ => none

/-- Wire AudioInputFlags (FAST 0 .. DIRECT 7) to legacy AUDIO_INPUT_FLAG_*
mask constants (0x1 .. 0x80). -/
def aidl2legacy_AudioInputFlags_audio_input_flags_t (aidl : Int) : Option Int :=
  match aidl with
  | 0 => some 1      -- FAST
  | 1 => some 2      -- HW_HOTWORD
  | 2 => some 4      -- RAW
  | 3 => some 8      -- SYNC
  | 4 => some 16     -- MMAP_NOIRQ
  | 5 => some 32     -- VOIP_TX
  | 6 => some 64     -- HW_AV_SYNC
  | 7 => some 128    -- DIRECT
  | _ => none

/-- Legacy AUDIO_INPUT_FLAG_* mask constants to wire AudioInputFlags. -/
def legacy2aidl_audio_input_flags_t_AudioInputFlags (legacy : Int) : Option Int :=
  match legacy with
  | 1 => some 0
  | 2 => some 1
  | 4 => some 2
  | 8 => some 3
  | 16 => some 4
  | 32 => some 5
  | 64 => some 6
  | 128 => some 7
  | _ => none

/-- Wire AudioOutputFlags (DIRECT 0 .. INCALL_MUSIC 14) to legacy
AUDIO_OUTPUT_FLAG_* mask constants; note the legacy numbering skips bits 11
and 12 (DIRECT_PCM is 0x2000, MMAP_NOIRQ 0x4000, VOIP_RX 0x8000,
INCALL_MUSIC 0x10000). -/
def aidl2legacy_AudioOutputFlags_audio_output_flags_t (aidl : Int) : Option Int :=
  match aidl with
  | 0 => some 1        -- DIRECT
  | 1 => some 2        -- PRIMARY
  | 2 => some 4        -- FAST
  | 3 => some 8        -- DEEP_BUFFER
  | 4 => some 16       -- COMPRESS_OFFLOAD
  | 5 => some 32       -- NON_BLOCKING
  | 6 => some 64       -- HW_AV_SYNC
  | 7 => some 128      -- TTS
  | 8 => some 256      -- RAW
  | 9 => some 512      -- SYNC
  | 10 => some 1024    -- IEC958_NONAUDIO
  | 11 => some 8192    -- DIRECT_PCM
  | 12 => some 16384   -- MMAP_NOIRQ
  | 13 => some 32768   -- VOIP_RX
  | 14 => some 65536   -- INCALL_MUSIC
  | _ => none

/-- Legacy AUDIO_OUTPUT_FLAG_* mask constants to wire AudioOutputFlags. -/
def legacy2aidl_audio_output_flags_t_AudioOutputFlags (legacy : Int) : Option Int :=
  match legacy with
  | 1 => some 0
  | 2 => some 1
  | 4 => some 2
  | 8 => some 3
  | 16 => some 4
  | 32 => some 5
  | 64 => some 6
  | 128 => some 7
  | 256 => some 8
  | 512 => some 9
  | 1024 => some 10
  | 8192 => some 11
  | 16384 => some 12
  | 32768 => some 13
  | 65536 => some 14
  | _ => none

/-- Wire AudioStreamType (DEFAULT 0 .. CALL_ASSISTANT 15) to legacy
audio_stream_type_t (AUDIO_STREAM_DEFAULT is -1, then VOICE_CALL 0 up to
CALL_ASSISTANT 14). -/
def aidl2legacy_AudioStreamType_audio_stream_type_t (aidl : Int) : Option Int :=
  match aidl with
  | 0 => some (-1)   -- DEFAULT → AUDIO_STREAM_DEFAULT
  | 1 => some 0      -- VOICE_CALL
  | 2 => some 1      -- SYSTEM
  | 3 => some 2      -- RING
  | 4 => some 3      -- MUSIC
  | 5 => some 4      -- ALARM
  | 6 => some 5      -- NOTIFICATION
  | 7 => some 6      -- BLUETOOTH_SCO
  | 8 => some 7      -- ENFORCED_AUDIBLE
  | 9 => some 8      -- DTMF
  | 10 => some 9     -- TTS
  | 11 => some 10    -- ACCESSIBILITY
  | 12 => some 11    -- ASSISTANT
  | 13 => some 12    -- REROUTING
  | 14 => some 13    -- PATCH
  | 15 => some 14    -- CALL_ASSISTANT
  | _ => none

/-- Legacy audio_stream_type_t to wire AudioStreamType. -/
def legacy2aidl_audio_stream_type_t_AudioStreamType (legacy : Int) : Option Int :=
  match legacy with
  | -1 => some 0
  | 0 => some 1
  | 1 => some 2
  | 2 => some 3
  | 3 => some 4
  | 4 => some 5
  | 5 => some 6
  | 6 => some 7
  | 7 => some 8
  | 8 => some 9
  | 9 => some 10
  | 10 => some 11
  | 11 => some 12
  | 12 => some 13
  | 13 => some 14
  | 14 => some 15
  | _ => none

/-- Wire AudioSourceType (INVALID 0, DEFAULT 1, .. HOTWORD 14 in declaration
order) to legacy audio_source_t (AUDIO_SOURCE_INVALID is -1, DEFAULT 0 up to
VOICE_PERFORMANCE 10, then ECHO_REFERENCE 1997, FM_TUNER 1998,
HOTWORD 1999). -/
def aidl2legacy_AudioSourceType_audio_source_t (aidl : Int) : Option Int :=
  match aidl with
  | 0 => some (-1)     -- INVALID → AUDIO_SOURCE_INVALID
  | 1 => some 0        -- DEFAULT
  | 2 => some 1        -- MIC
  | 3 => some 2        -- VOICE_UPLINK
  | 4 => some 3        -- VOICE_DOWNLINK
  | 5 => some 4        -- VOICE_CALL
  | 6 => some 5        -- CAMCORDER
  | 7 => some 6        -- VOICE_RECOGNITION
  | 8 => some 7        -- VOICE_COMMUNICATION
  | 9 => some 8        -- REMOTE_SUBMIX
  | 10 => some 9       -- UNPROCESSED
  | 11 => some 10      -- VOICE_PERFORMANCE
  | 12 => some 1997    -- ECHO_REFERENCE
  | 13 => some 1998    -- FM_TUNER
  | 14 => some 1999    -- HOTWORD
  | _ => none

/-- Legacy audio_source_t to wire AudioSourceType. -/
def legacy2aidl_audio_source_t_AudioSourceType (legacy : Int) : Option Int :=
  match legacy with
  | -1 => some 0
  | 0 => some 1
  | 1 => some 2
  | 2 => some 3
  | 3 => some 4
  | 4 => some 5
  | 5 => some 6
  | 6 => some 7
  | 7 => some 8
  | 8 => some 9
  | 9 => some 10
  | 10 => some 11
  | 1997 => some 12
  | 1998 => some 13
  | 1999 => some 14
  | _ => none

/-- Wire AudioContentType (UNKNOWN 0 .. SONIFICATION 4) to legacy
audio_content_type_t (same numbering). -/
def aidl2legacy_AudioContentType_audio_content_type_t (aidl : Int) : Option Int :=
  match aidl with
  | 0 => some 0
  | 1 => some 1
  | 2 => some 2
  | 3 => some 3
  | 4 => some 4
  | _ => none

/-- Legacy audio_content_type_t to wire AudioContentType. -/
def legacy2aidl_audio_content_type_t_AudioContentType (legacy : Int) : Option Int :=
  match legacy with
  | 0 => some 0
  | 1 => some 1
  | 2 => some 2
  | 3 => some 3
  | 4 => some 4
  | _ => none

/-- Wire AudioUsage (UNKNOWN 0 .. ANNOUNCEMENT 21 in declaration order) to
legacy audio_usage_t (0..17 then EMERGENCY 1000, SAFETY 1001,
VEHICLE_STATUS 1002, ANNOUNCEMENT 1003). -/
def aidl2legacy_AudioUsage_audio_usage_t (aidl : Int) : Option Int :=
  match aidl with
  | 0 => some 0        -- UNKNOWN
  | 1 => some 1        -- MEDIA
  | 2 => some 2        -- VOICE_COMMUNICATION
  | 3 => some 3        -- VOICE_COMMUNICATION_SIGNALLING
  | 4 => some 4        -- ALARM
  | 5 => some 5        -- NOTIFICATION
  | 6 => some 6        -- NOTIFICATION_TELEPHONY_RINGTONE
  | 7 => some 7        -- NOTIFICATION_COMMUNICATION_REQUEST
  | 8 => some 8        -- NOTIFICATION_COMMUNICATION_INSTANT
  | 9 => some 9        -- NOTIFICATION_COMMUNICATION_DELAYED
  | 10 => some 10      -- NOTIFICATION_EVENT
  | 11 => some 11      -- ASSISTANCE_ACCESSIBILITY
  | 12 => some 12      -- ASSISTANCE_NAVIGATION_GUIDANCE
  | 13 => some 13      -- ASSISTANCE_SONIFICATION
  | 14 => some 14      -- GAME
  | 15 => some 15      -- VIRTUAL_SOURCE
  | 16 => some 16      -- ASSISTANT
  | 17 => some 17      -- CALL_ASSISTANT
  | 18 => some 1000    -- EMERGENCY
  | 19 => some 1001    -- SAFETY
  | 20 => some 1002    -- VEHICLE_STATUS
  | 21 => some 1003    -- ANNOUNCEMENT
  | _ => none

/-- Legacy audio_usage_t to wire AudioUsage. -/
def legacy2aidl_audio_usage_t_AudioUsage (legacy : Int) : Option Int :=
  match legacy with
  | 0 => some 0
  | 1 => some 1
  | 2 => some 2
  | 3 => some 3
  | 4 => some 4
  | 5 => some 5
  | 6 => some 6
  | 7 => some 7
  | 8 => some 8
  | 9 => some 9
  | 10 => some 10
  | 11 => some 11
  | 12 => some 12
  | 13 => some 13
  | 14 => some 14
  | 15 => some 15
  | 16 => some 16
  | 17 => some 17
  | 1000 => some 18
  | 1001 => some 19
  | 1002 => some 20
  | 1003 => some 21
  | _ => none

/-- Wire AudioFlag (AUDIBILITY_ENFORCED 0 .. CAPTURE_PRIVATE 13) to legacy
AUDIO_FLAG_* mask constants (0x1 .. 0x2000). -/
def aidl2legacy_AudioFlag_audio_flags_mask_t (aidl : Int) : Option Int :=
  match aidl with
  | 0 => some 1        -- AUDIBILITY_ENFORCED
  | 1 => some 2        -- SECURE
  | 2 => some 4        -- SCO
  | 3 => some 8        -- BEACON
  | 4 => some 16       -- HW_AV_SYNC
  | 5 => some 32       -- HW_HOTWORD
  | 6 => some 64       -- BYPASS_INTERRUPTION_POLICY
  | 7 => some 128      -- BYPASS_MUTE
  | 8 => some 256      -- LOW_LATENCY
  | 9 => some 512      -- DEEP_BUFFER
  | 10 => some 1024    -- NO_MEDIA_PROJECTION
  | 11 => some 2048    -- MUTE_HAPTIC
  | 12 => some 4096    -- NO_SYSTEM_CAPTURE
  | 13 => some 8192    -- CAPTURE_PRIVATE
  | _ => none

/-- Legacy AUDIO_FLAG_* mask constants to wire AudioFlag.  The legacy
AUDIO_FLAG_NONE value (0) is explicitly rejected by the source. -/
def legacy2aidl_audio_flags_mask_t_AudioFlag (legacy : Int) : Option Int :=
  match legacy with
  | 0 => none          -- AUDIO_FLAG_NONE: explicit case returning BAD_VALUE
  | 1 => some 0
  | 2 => some 1
  | 4 => some 2
  | 8 => some 3
  | 16 => some 4
  | 32 => some 5
  | 64 => some 6
  | 128 => some 7
  | 256 => some 8
  | 512 => some 9
  | 1024 => some 10
  | 2048 => some 11
  | 4096 => some 12
  | 8192 => some 13
  | _ => none

/-- Wire AudioEncapsulationMode (NONE 0, ELEMENTARY_STREAM 1, HANDLE 2) to
the legacy audio_encapsulation_mode_t enum (same numbering).  The source
function carries the swapped name aidl2legacy_audio_encapsulation_mode_t_-
AudioEncapsulationMode but converts wire to legacy. -/
def aidl2legacy_audio_encapsulation_mode_t_AudioEncapsulationMode (aidl : Int) : Option Int :=
  match aidl with
  | 0 => some 0
  | 1 => some 1
  | 2 => some 2
  | _ => none

/-- Legacy audio_encapsulation_mode_t to wire AudioEncapsulationMode. -/
def legacy2aidl_AudioEncapsulationMode_audio_encapsulation_mode_t (legacy : Int) : Option Int :=
  match legacy with
  | 0 => some 0
  | 1 => some 1
  | 2 => some 2
  | _ => none

/-!
Bitmask conversion instances.  All five bitmask pairs in the source
instantiate convertBitmask with the same adapter shapes: the legacy-to-wire
direction walks the legacy mask, decodes each bit as a single-bit mask value
(index2enum_bitmask), looks it up in the per-bit table and sets the wire bit
at the resulting enum index (enumToMask_index), finally casting the unsigned
accumulator to int32_t; the wire-to-legacy direction walks the unsigned view
of the wire int32_t mask, decodes each bit as an index (index2enum_index),
looks it up and ORs in the resulting legacy mask constant
(enumToMask_bitmask).
-/

/-- Shared shape of all legacy2aidl convertBitmask call sites. -/
def legacyToAidlMask (tbl : Int → Option Int) (legacy : Nat) : Option Int :=
  (convertBitmask legacy tbl index2enum_bitmask enumToMask_index).map toSigned32

/-- Shared shape of all aidl2legacy convertBitmask call sites. -/
def aidlToLegacyMask (tbl : Int → Option Int) (aidl : Int) : Option Nat :=
  convertBitmask (toUnsigned32 aidl) tbl index2enum_index enumToMask_bitmask

/-- aidl2legacy_int32_t_config_mask: wire configMask bits to the legacy
unsigned config mask. -/
def aidl2legacy_int32_t_config_mask (aidl : Int) : Option Nat :=
  aidlToLegacyMask aidl2legacy_AudioPortConfigType aidl

/-- legacy2aidl_config_mask_int32_t: legacy unsigned config mask to the wire
int32_t configMask. -/
def legacy2aidl_config_mask_int32_t (legacy : Nat) : Option Int :=
  legacyToAidlMask legacy2aidl_AudioPortConfigType legacy

/-- aidl2legacy_int32_t_audio_gain_mode_t. -/
def aidl2legacy_int32_t_audio_gain_mode_t (aidl : Int) : Option Nat :=
  aidlToLegacyMask aidl2legacy_AudioGainMode_int aidl

/-- legacy2aidl_audio_gain_mode_t_int32_t. -/
def legacy2aidl_audio_gain_mode_t_int32_t (legacy : Nat) : Option Int :=
  legacyToAidlMask legacy2aidl_int_AudioGainMode legacy

/-- aidl2legacy_audio_input_flags_mask. -/
def aidl2legacy_audio_input_flags_mask (aidl : Int) : Option Nat :=
  aidlToLegacyMask aidl2legacy_AudioInputFlags_audio_input_flags_t aidl

/-- legacy2aidl_audio_input_flags_mask. -/
def legacy2aidl_audio_input_flags_mask (legacy : Nat) : Option Int :=
  legacyToAidlMask legacy2aidl_audio_input_flags_t_AudioInputFlags legacy

/-- aidl2legacy_audio_output_flags_mask. -/
def aidl2legacy_audio_output_flags_mask (aidl : Int) : Option Nat :=
  aidlToLegacyMask aidl2legacy_AudioOutputFlags_audio_output_flags_t aidl

/-- legacy2aidl_audio_output_flags_mask. -/
def legacy2aidl_audio_output_flags_mask (legacy : Nat) : Option Int :=
  legacyToAidlMask legacy2aidl_audio_output_flags_t_AudioOutputFlags legacy

/-- aidl2legacy_int32_t_audio_flags_mask_t_mask. -/
def aidl2legacy_int32_t_audio_flags_mask_t_mask (aidl : Int) : Option Nat :=
  aidlToLegacyMask aidl2legacy_AudioFlag_audio_flags_mask_t aidl

/-- legacy2aidl_audio_flags_mask_t_int32_t_mask. -/
def legacy2aidl_audio_flags_mask_t_int32_t_mask (legacy : Nat) : Option Int :=
  legacyToAidlMask legacy2aidl_audio_flags_mask_t_AudioFlag legacy

/-- The derived two-valued Direction classification. -/
inductive Direction where
  | INPUT
  | OUTPUT
deriving DecidableEq, Repr

/-- The direction overload on the wire types media::AudioPortRole and
media::AudioPortType (role NONE 0, SOURCE 1, SINK 2; type NONE 0, DEVICE 1,
MIX 2, SESSION 3).  Any combination outside the four valid pairs falls
through to BAD_VALUE. -/
def directionMedia (role typ : Int) : Option Direction :=
  match typ with
  | 1 =>               -- AudioPortType::DEVICE
    match role with
    | 1 => some Direction.INPUT    -- SOURCE
    | 2 => some Direction.OUTPUT   -- SINK
    | _ => none
  | 2 =>               -- AudioPortType::MIX
    match role with
    | 1 => some Direction.OUTPUT   -- SOURCE
    | 2 => some Direction.INPUT    -- SINK
    | _ => none
  | _ => none

/-- The direction overload on the legacy types audio_port_role_t and
audio_port_type_t (same numbering as the wire enums). -/
def directionLegacy (role typ : Int) : Option Direction :=
  match typ with
  | 1 =>               -- AUDIO_PORT_TYPE_DEVICE
    match role with
    | 1 => some Direction.INPUT    -- AUDIO_PORT_ROLE_SOURCE
    | 2 => some Direction.OUTPUT   -- AUDIO_PORT_ROLE_SINK
    | _ => none
  | 2 =>               -- AUDIO_PORT_TYPE_MIX
    match role with
    | 1 => some Direction.OUTPUT   -- AUDIO_PORT_ROLE_SOURCE
    | 2 => some Direction.INPUT    -- AUDIO_PORT_ROLE_SINK
    | _ => none
  | _ => none


/-!
String conversions between std::string and legacy fixed-capacity char
buffers.  A legacy buffer is modelled as the list of characters stored in
the array (the callers pass arrays of exactly the stated capacity).  The
nullptr check of legacy2aidl_string has no counterpart here because
references in the embedding are always valid.
-/

/-- The string terminator character. -/
def nullChar : Char := Char.ofNat 0

/-- Model of strnlen: the number of characters before the first terminator,
reading at most maxSize characters. -/
def strnlen (s : List Char) (maxSize : Nat) : Nat :=
  min (s.takeWhile (fun c => c != nullChar)).length maxSize

/-- aidl2legacy_string: copies the wire string into a legacy buffer of the
given capacity; fails when the string does not leave room for the
terminator (aidl.size() > maxSize - 1). -/
def aidl2legacy_string (aidl : String) (maxSize : Nat) : Option (List Char) :=
  if maxSize ≤ aidl.length then none else some aidl.data

/-- legacy2aidl_string: reads a legacy buffer of the given capacity; fails
when no terminator occurs within maxSize characters. -/
def legacy2aidl_string (legacy : List Char) (maxSize : Nat) : Option String :=
  if strnlen legacy maxSize = maxSize then none
  else some (String.mk (legacy.takeWhile (fun c => c != nullChar)))

/-- bitmaskIsSet(mask, index): tests the bit of the mask at the enum index
(enumToMask_index builds the single-bit mask 1 << index). -/
def bitmaskIsSet (mask : Int) (index : Nat) : Bool :=
  (toUnsigned32 mask).testBit index

/-- Wire media::AudioGainConfig. -/
structure AudioGainConfig where
  index : Int
  mode : Int
  channelMask : Int
  values : List Int
  rampDurationMs : Int
deriving DecidableEq

instance : Inhabited AudioGainConfig := ⟨⟨0, 0, 0, [], 0⟩⟩

/-- Legacy audio_gain_config.  The values array (capacity
sizeof(audio_channel_mask_t) * 8 = 32) is modelled by the list of entries the
converter wrote. -/
structure audio_gain_config where
  index : Int
  mode : Nat
  channel_mask : Nat
  values : List Int
  ramp_duration_ms : Nat
deriving DecidableEq

instance : Inhabited audio_gain_config := ⟨⟨0, 0, 0, [], 0⟩⟩

/-- aidl2legacy_AudioGainConfig_audio_gain_config.  The channel-count
functions audio_channel_count_from_in_mask / audio_channel_count_from_out_mask
live in the platform library outside this source tree and are taken as
parameters. -/
def aidl2legacy_AudioGainConfig_audio_gain_config
    (inMaskCount outMaskCount : Nat → Nat)
    (aidl : AudioGainConfig) (role typ : Int) : Option audio_gain_config := do
  let mode ← aidl2legacy_int32_t_audio_gain_mode_t aidl.mode
  let channel_mask := toUnsigned32 aidl.channelMask
  let dir ← directionMedia role typ
  let isInput : Bool := decide (dir = Direction.INPUT)
  let isJoint : Bool := bitmaskIsSet aidl.mode 0    -- AudioGainMode::JOINT has index 0
  let numValues : Nat :=
    if isJoint then 1
    else if isInput then inMaskCount channel_mask else outMaskCount channel_mask
  if aidl.values.length ≠ numValues ∨ 32 < aidl.values.length then none
  else do
    -- the per-element convertIntegral<int> of an int32_t value cannot fail
    let ramp ← convertIntegral_int32_uint aidl.rampDurationMs
    some { index := aidl.index, mode := mode, channel_mask := channel_mask,
           values := aidl.values, ramp_duration_ms := ramp }

/-- legacy2aidl_audio_gain_config_AudioGainConfig.  Reads of values entries
beyond the stored list model reads of uninitialized array slots and yield 0. -/
def legacy2aidl_audio_gain_config_AudioGainConfig
    (inMaskCount outMaskCount : Nat → Nat)
    (legacy : audio_gain_config) (role typ : Int) : Option AudioGainConfig := do
  let mode ← legacy2aidl_audio_gain_mode_t_int32_t legacy.mode
  let channelMask := toSigned32 legacy.channel_mask
  let dir ← directionLegacy role typ
  let isInput : Bool := decide (dir = Direction.INPUT)
  let isJoint : Bool := legacy.mode.testBit 0       -- legacy.mode & AUDIO_GAIN_MODE_JOINT
  let numValues : Nat :=
    if isJoint then 1
    else if isInput then inMaskCount legacy.channel_mask
    else outMaskCount legacy.channel_mask
  let values := (List.range numValues).map (fun i => legacy.values.getD i 0)
  let ramp ← convertIntegral_uint_int32 legacy.ramp_duration_ms
  some { index := legacy.index, mode := mode, channelMask := channelMask,
         values := values, rampDurationMs := ramp }

/-- Wire media::AudioIoFlags, a tagged union with members input and output.
The AIDL default constructs the first member with value 0. -/
inductive AudioIoFlags where
  | input (f : Int)
  | output (f : Int)
deriving DecidableEq

instance : Inhabited AudioIoFlags := ⟨AudioIoFlags.input 0⟩

/-- Legacy audio_io_flags, an anonymous C union of the input and output flag
masks.  The union is modelled as a tagged value recording the member last
written; reading the other member (type punning) is modelled as failure, and
uninit stands for storage never written. -/
inductive audio_io_flags where
  | uninit
  | input (f : Nat)
  | output (f : Nat)
deriving DecidableEq

instance : Inhabited audio_io_flags := ⟨audio_io_flags.uninit⟩

/-- aidl2legacy_AudioIoFlags_audio_io_flags. -/
def aidl2legacy_AudioIoFlags_audio_io_flags
    (aidl : AudioIoFlags) (role typ : Int) : Option audio_io_flags := do
  let dir ← directionMedia role typ
  match dir with
  | Direction.INPUT => do
    let f ← (match aidl with | AudioIoFlags.input x => some x | _ => none)
    let v ← aidl2legacy_audio_input_flags_mask f
    some (audio_io_flags.input v)
  | Direction.OUTPUT => do
    let f ← (match aidl with | AudioIoFlags.output x => some x | _ => none)
    let v ← aidl2legacy_audio_output_flags_mask f
    some (audio_io_flags.output v)

/-- legacy2aidl_audio_io_flags_AudioIoFlags. -/
def legacy2aidl_audio_io_flags_AudioIoFlags
    (legacy : audio_io_flags) (role typ : Int) : Option AudioIoFlags := do
  let dir ← directionLegacy role typ
  match dir with
  | Direction.INPUT => do
    let f ← (match legacy with | audio_io_flags.input x => some x | _ => none)
    let v ← legacy2aidl_audio_input_flags_mask f
    some (AudioIoFlags.input v)
  | Direction.OUTPUT => do
    let f ← (match legacy with | audio_io_flags.output x => some x | _ => none)
    let v ← legacy2aidl_audio_output_flags_mask f
    some (AudioIoFlags.output v)

/-- Capacity of the legacy device address buffer
(AUDIO_DEVICE_MAX_ADDRESS_LEN in the platform header). -/
def AUDIO_DEVICE_MAX_ADDRESS_LEN : Nat := 32

/-- Wire media::AudioPortConfigDeviceExt. -/
structure AudioPortConfigDeviceExt where
  hwModule : Int
  type : Int
  address : String
deriving DecidableEq

instance : Inhabited AudioPortConfigDeviceExt := ⟨⟨0, 0, ""⟩⟩

/-- Legacy audio_port_config_device_ext. -/
structure audio_port_config_device_ext where
  hw_module : Int
  type : Nat
  address : List Char
deriving DecidableEq

instance : Inhabited audio_port_config_device_ext := ⟨⟨0, 0, []⟩⟩

/-- aidl2legacy_AudioPortConfigDeviceExt. -/
def aidl2legacy_AudioPortConfigDeviceExt
    (aidl : AudioPortConfigDeviceExt) : Option audio_port_config_device_ext := do
  let address ← aidl2legacy_string aidl.address AUDIO_DEVICE_MAX_ADDRESS_LEN
  some { hw_module := aidl.hwModule, type := toUnsigned32 aidl.type,
         address := address }

/-- legacy2aidl_AudioPortConfigDeviceExt. -/
def legacy2aidl_AudioPortConfigDeviceExt
    (legacy : audio_port_config_device_ext) : Option AudioPortConfigDeviceExt := do
  let address ← legacy2aidl_string legacy.address AUDIO_DEVICE_MAX_ADDRESS_LEN
  some { hwModule := legacy.hw_module, type := toSigned32 legacy.type,
         address := address }

/-- Wire media::AudioPortConfigMixExtUseCase, a tagged union with members
nothing (bool), stream (AudioStreamType) and source (AudioSourceType). -/
inductive AudioPortConfigMixExtUseCase where
  | nothing (b : Bool)
  | stream (v : Int)
  | source (v : Int)
deriving DecidableEq

instance : Inhabited AudioPortConfigMixExtUseCase :=
  ⟨AudioPortConfigMixExtUseCase.nothing false⟩

/-- Legacy anonymous union inside audio_port_config_mix_ext holding either a
stream type or a source type, modelled as a tagged value recording the member
last written (uninit when never written); reading the inactive member is
modelled as failure. -/
inductive audio_port_config_mix_ext_usecase where
  | uninit
  | stream (v : Int)
  | source (v : Int)
deriving DecidableEq

instance : Inhabited audio_port_config_mix_ext_usecase :=
  ⟨audio_port_config_mix_ext_usecase.uninit⟩

/-- aidl2legacy_AudioPortConfigMixExtUseCase.  As the source comments state,
this mapping is intentional and not a bug: a SOURCE role reads the wire
stream member, a SINK role reads the wire source member.  The
LOG_ALWAYS_FATAL branch for an out-of-range role (unreachable after role
validation) is modelled as failure. -/
def aidl2legacy_AudioPortConfigMixExtUseCase
    (aidl : AudioPortConfigMixExtUseCase) (role : Int) :
    Option audio_port_config_mix_ext_usecase :=
  match role with
  | 0 =>     -- AudioPortRole::NONE: just verify that the union is empty
    (match aidl with
     | AudioPortConfigMixExtUseCase.nothing _ =>
         some audio_port_config_mix_ext_usecase.uninit
     | _ => none)
  | 1 => do  -- SOURCE corresponds to the stream field
    let s ← (match aidl with
             | AudioPortConfigMixExtUseCase.stream v => some v
             | _ => none)
    let l ← aidl2legacy_AudioStreamType_audio_stream_type_t s
    some (audio_port_config_mix_ext_usecase.stream l)
  | 2 => do  -- SINK corresponds to the source field
    let s ← (match aidl with
             | AudioPortConfigMixExtUseCase.source v => some v
             | _ => none)
    let l ← aidl2legacy_AudioSourceType_audio_source_t s
    some (audio_port_config_mix_ext_usecase.source l)
  | _ => none

/-- legacy2aidl_AudioPortConfigMixExtUseCase. -/
def legacy2aidl_AudioPortConfigMixExtUseCase
    (legacy : audio_port_config_mix_ext_usecase) (role : Int) :
    Option AudioPortConfigMixExtUseCase :=
  match role with
  | 0 => some (AudioPortConfigMixExtUseCase.nothing false)
  | 1 => do  -- SOURCE corresponds to the stream field
    let v ← (match legacy with
             | audio_port_config_mix_ext_usecase.stream v => some v
             | _ => none)
    let s ← legacy2aidl_audio_stream_type_t_AudioStreamType v
    some (AudioPortConfigMixExtUseCase.stream s)
  | 2 => do  -- SINK corresponds to the source field
    let v ← (match legacy with
             | audio_port_config_mix_ext_usecase.source v => some v
             | _ => none)
    let s ← legacy2aidl_audio_source_t_AudioSourceType v
    some (AudioPortConfigMixExtUseCase.source s)
  | _ => none

/-- Wire media::AudioPortConfigMixExt. -/
structure AudioPortConfigMixExt where
  hwModule : Int
  handle : Int
  usecase : AudioPortConfigMixExtUseCase
deriving DecidableEq

instance : Inhabited AudioPortConfigMixExt := ⟨⟨0, 0, default⟩⟩

/-- Legacy audio_port_config_mix_ext. -/
structure audio_port_config_mix_ext where
  hw_module : Int
  handle : Int
  usecase : audio_port_config_mix_ext_usecase
deriving DecidableEq

instance : Inhabited audio_port_config_mix_ext := ⟨⟨0, 0, default⟩⟩

/-- aidl2legacy_AudioPortConfigMixExt. -/
def aidl2legacy_AudioPortConfigMixExt
    (aidl : AudioPortConfigMixExt) (role : Int) : Option audio_port_config_mix_ext := do
  let usecase ← aidl2legacy_AudioPortConfigMixExtUseCase aidl.usecase role
  some { hw_module := aidl.hwModule, handle := aidl.handle, usecase := usecase }

/-- legacy2aidl_AudioPortConfigMixExt. -/
def legacy2aidl_AudioPortConfigMixExt
    (legacy : audio_port_config_mix_ext) (role : Int) : Option AudioPortConfigMixExt := do
  let usecase ← legacy2aidl_AudioPortConfigMixExtUseCase legacy.usecase role
  some { hwModule := legacy.hw_module, handle := legacy.handle, usecase := usecase }

/-- Wire media::AudioPortConfigExt, a tagged union over the port type. -/
inductive AudioPortConfigExt where
  | nothing (b : Bool)
  | device (d : AudioPortConfigDeviceExt)
  | mix (m : AudioPortConfigMixExt)
  | session (s : Int)
deriving DecidableEq

instance : Inhabited AudioPortConfigExt := ⟨AudioPortConfigExt.nothing false⟩

/-- Legacy anonymous ext union of audio_port_config, modelled as a tagged
value like the other legacy unions. -/
inductive audio_port_config_ext where
  | uninit
  | device (d : audio_port_config_device_ext)
  | mix (m : audio_port_config_mix_ext)
  | session (s : Int)
deriving DecidableEq

instance : Inhabited audio_port_config_ext := ⟨audio_port_config_ext.uninit⟩

/-- aidl2legacy_AudioPortConfigExt.  The LOG_ALWAYS_FATAL branch for an
out-of-range type (unreachable after type validation) is modelled as
failure. -/
def aidl2legacy_AudioPortConfigExt
    (aidl : AudioPortConfigExt) (typ role : Int) : Option audio_port_config_ext :=
  match typ with
  | 0 =>     -- AudioPortType::NONE: just verify that the union is empty
    (match aidl with
     | AudioPortConfigExt.nothing _ => some audio_port_config_ext.uninit
     | _ => none)
  | 1 => do  -- DEVICE
    let d ← (match aidl with | AudioPortConfigExt.device x => some x | _ => none)
    let l ← aidl2legacy_AudioPortConfigDeviceExt d
    some (audio_port_config_ext.device l)
  | 2 => do  -- MIX
    let m ← (match aidl with | AudioPortConfigExt.mix x => some x | _ => none)
    let l ← aidl2legacy_AudioPortConfigMixExt m role
    some (audio_port_config_ext.mix l)
  | 3 => do  -- SESSION: aidl2legacy_int32_t_audio_session_t is a reinterpret
    let s ← (match aidl with | AudioPortConfigExt.session x => some x | _ => none)
    some (audio_port_config_ext.session s)
  | _ => none

/-- legacy2aidl_AudioPortConfigExt. -/
def legacy2aidl_AudioPortConfigExt
    (legacy : audio_port_config_ext) (typ role : Int) : Option AudioPortConfigExt :=
  match typ with
  | 0 => some (AudioPortConfigExt.nothing false)
  | 1 => do
    let d ← (match legacy with | audio_port_config_ext.device x => some x | _ => none)
    let a ← legacy2aidl_AudioPortConfigDeviceExt d
    some (AudioPortConfigExt.device a)
  | 2 => do
    let m ← (match legacy with | audio_port_config_ext.mix x => some x | _ => none)
    let a ← legacy2aidl_AudioPortConfigMixExt m role
    some (AudioPortConfigExt.mix a)
  | 3 => do
    let s ← (match legacy with | audio_port_config_ext.session x => some x | _ => none)
    some (AudioPortConfigExt.session s)
  | _ => none

/-- Wire media::AudioPortConfig. -/
structure AudioPortConfig where
  id : Int
  role : Int
  type : Int
  configMask : Int
  sampleRate : Int
  channelMask : Int
  format : Int
  gain : AudioGainConfig
  flags : AudioIoFlags
  ext : AudioPortConfigExt
deriving DecidableEq

instance : Inhabited AudioPortConfig :=
  ⟨⟨0, 0, 0, 0, 0, 0, 0, default, default, default⟩⟩

/-- Legacy audio_port_config. -/
structure audio_port_config where
  id : Int
  role : Int
  type : Int
  config_mask : Nat
  sample_rate : Nat
  channel_mask : Nat
  format : Nat
  gain : audio_gain_config
  flags : audio_io_flags
  ext : audio_port_config_ext
deriving DecidableEq

instance : Inhabited audio_port_config :=
  ⟨⟨0, 0, 0, 0, 0, 0, 0, default, default, default⟩⟩

/-- aidl2legacy_AudioPortConfig_audio_port_config.  The uninitialized local
legacy struct of the source is made explicit as the init parameter: fields
guarded by an absent configMask bit keep the corresponding init contents. -/
def aidl2legacy_AudioPortConfig_audio_port_config
    (inMaskCount outMaskCount : Nat → Nat)
    (init : audio_port_config) (aidl : AudioPortConfig) : Option audio_port_config := do
  let role ← aidl2legacy_AudioPortRole_audio_port_role_t aidl.role
  let typ ← aidl2legacy_AudioPortType_audio_port_type_t aidl.type
  let config_mask ← aidl2legacy_int32_t_config_mask aidl.configMask
  let sample_rate ←
    if bitmaskIsSet aidl.configMask 0    -- AudioPortConfigType::SAMPLE_RATE
    then convertIntegral_int32_uint aidl.sampleRate
    else some init.sample_rate
  let channel_mask :=
    if bitmaskIsSet aidl.configMask 1    -- AudioPortConfigType::CHANNEL_MASK
    then toUnsigned32 aidl.channelMask
    else init.channel_mask
  let format :=
    if bitmaskIsSet aidl.configMask 2    -- AudioPortConfigType::FORMAT
    then toUnsigned32 aidl.format
    else init.format
  let gain ←
    if bitmaskIsSet aidl.configMask 3    -- AudioPortConfigType::GAIN
    then aidl2legacy_AudioGainConfig_audio_gain_config
           inMaskCount outMaskCount aidl.gain aidl.role aidl.type
    else some init.gain
  let flags ←
    if bitmaskIsSet aidl.configMask 4    -- AudioPortConfigType::FLAGS
    then aidl2legacy_AudioIoFlags_audio_io_flags aidl.flags aidl.role aidl.type
    else some init.flags
  let ext ← aidl2legacy_AudioPortConfigExt aidl.ext aidl.type aidl.role
  some { id := aidl.id, role := role, type := typ, config_mask := config_mask,
         sample_rate := sample_rate, channel_mask := channel_mask,
         format := format, gain := gain, flags := flags, ext := ext }

/-- legacy2aidl_audio_port_config_AudioPortConfig.  Fields guarded by an
absent legacy config_mask bit keep the value-initialized AIDL defaults. -/
def legacy2aidl_audio_port_config_AudioPortConfig
    (inMaskCount outMaskCount : Nat → Nat)
    (legacy : audio_port_config) : Option AudioPortConfig := do
  let role ← legacy2aidl_audio_port_role_t_AudioPortRole legacy.role
  let typ ← legacy2aidl_audio_port_type_t_AudioPortType legacy.type
  let configMask ← legacy2aidl_config_mask_int32_t legacy.config_mask
  let sampleRate ←
    if legacy.config_mask.testBit 0      -- AUDIO_PORT_CONFIG_SAMPLE_RATE
    then convertIntegral_uint_int32 legacy.sample_rate
    else some 0
  let channelMask :=
    if legacy.config_mask.testBit 1      -- AUDIO_PORT_CONFIG_CHANNEL_MASK
    then toSigned32 legacy.channel_mask
    else 0
  let format :=
    if legacy.config_mask.testBit 2      -- AUDIO_PORT_CONFIG_FORMAT
    then toSigned32 legacy.format
    else 0
  let gain ←
    if legacy.config_mask.testBit 3      -- AUDIO_PORT_CONFIG_GAIN
    then legacy2aidl_audio_gain_config_AudioGainConfig
           inMaskCount outMaskCount legacy.gain legacy.role legacy.type
    else some default
  let flags ←
    if legacy.config_mask.testBit 4      -- AUDIO_PORT_CONFIG_FLAGS
    then legacy2aidl_audio_io_flags_AudioIoFlags legacy.flags legacy.role legacy.type
    else some default
  let ext ← legacy2aidl_AudioPortConfigExt legacy.ext legacy.type legacy.role
  some { id := legacy.id, role := role, type := typ, configMask := configMask,
         sampleRate := sampleRate, channelMask := channelMask, format := format,
         gain := gain, flags := flags, ext := ext }

/-- Maximum number of ports on either side of a patch
(AUDIO_PATCH_PORTS_MAX in the platform header). -/
def AUDIO_PATCH_PORTS_MAX : Nat := 16

/-- Wire media::AudioPatch. -/
structure AudioPatch where
  id : Int
  sinks : List AudioPortConfig
  sources : List AudioPortConfig
deriving DecidableEq

instance : Inhabited AudioPatch := ⟨⟨0, [], []⟩⟩

/-- Legacy struct audio_patch.  The fixed arrays are modelled as lists; the
separate count fields are kept because the source checks them independently
of the array contents. -/
structure audio_patch where
  id : Int
  num_sinks : Nat
  sinks : List audio_port_config
  num_sources : Nat
  sources : List audio_port_config
deriving DecidableEq

instance : Inhabited audio_patch := ⟨⟨0, 0, [], 0, []⟩⟩

/-- aidl2legacy_AudioPatch_audio_patch.  Each element converts into a freshly
declared (uninitialized) legacy element, modelled by the default record. -/
def aidl2legacy_AudioPatch_audio_patch
    (inMaskCount outMaskCount : Nat → Nat)
    (aidl : AudioPatch) : Option audio_patch := do
  let num_sinks := aidl.sinks.length
  if AUDIO_PATCH_PORTS_MAX < num_sinks then none
  else do
    let sinks ← aidl.sinks.mapM
      (aidl2legacy_AudioPortConfig_audio_port_config inMaskCount outMaskCount default)
    let num_sources := aidl.sources.length
    if AUDIO_PATCH_PORTS_MAX < num_sources then none
    else do
      let sources ← aidl.sources.mapM
        (aidl2legacy_AudioPortConfig_audio_port_config inMaskCount outMaskCount default)
      some { id := aidl.id, num_sinks := num_sinks, sinks := sinks,
             num_sources := num_sources, sources := sources }

/-- legacy2aidl_audio_patch_AudioPatch.  Reads of array slots beyond the
stored list model reads of uninitialized memory and yield the default
record. -/
def legacy2aidl_audio_patch_AudioPatch
    (inMaskCount outMaskCount : Nat → Nat)
    (legacy : audio_patch) : Option AudioPatch := do
  if AUDIO_PATCH_PORTS_MAX < legacy.num_sinks then none
  else do
    let sinks ← (List.range legacy.num_sinks).mapM (fun i =>
      legacy2aidl_audio_port_config_AudioPortConfig inMaskCount outMaskCount
        (legacy.sinks.getD i default))
    if AUDIO_PATCH_PORTS_MAX < legacy.num_sources then none
    else do
      let sources ← (List.range legacy.num_sources).mapM (fun i =>
        legacy2aidl_audio_port_config_AudioPortConfig inMaskCount outMaskCount
          (legacy.sources.getD i default))
      some { id := legacy.id, sinks := sinks, sources := sources }


theorem convertBitmaskLoop_none_iff {SrcEnum DestEnum : Type}
    (cv : SrcEnum → Option DestEnum) (te : Nat → SrcEnum) (tm : DestEnum → Nat) :
    ∀ usrc idx dest, convertBitmaskLoop cv te tm usrc idx dest = none ↔
      ∃ i, usrc.testBit i = true ∧ cv (te (idx + i)) = none := by
  intro usrc
  induction usrc using Nat.strong_induction_on with
  | _ usrc ih =>
    intro idx dest
    rw [convertBitmaskLoop]
    by_cases h0 : usrc = 0
    · subst h0
      simp [Nat.zero_testBit]
    · simp only [h0, dite_false]
      have hlt : usrc >>> 1 < usrc := by
        simp only [Nat.shiftRight_eq_div_pow, Nat.pow_one]; omega
      have hbit0 : usrc.testBit 0 = decide (usrc % 2 = 1) := Nat.testBit_zero usrc
      have hbitS : ∀ i, usrc.testBit (i + 1) = (usrc >>> 1).testBit i := by
        intro i
        rw [Nat.testBit_add_one, Nat.shiftRight_eq_div_pow, Nat.pow_one]
      by_cases hodd : usrc % 2 = 1
      · simp only [hodd, if_true]
        cases hcv : cv (te idx) with
        | none =>
          simp only [true_iff]
          exact ⟨0, by simp [hbit0, hodd], by simpa using hcv⟩
        | some e =>
          rw [ih _ hlt]
          constructor
          · rintro ⟨i, hi, hn⟩
            exact ⟨i + 1, by rw [hbitS]; exact hi, by
              have : idx + (i + 1) = idx + 1 + i := by omega
              rw [this]; exact hn⟩
          · rintro ⟨i, hi, hn⟩
            cases i with
            | zero =>
              exfalso
              rw [Nat.add_zero] at hn
              rw [hcv] at hn
              exact Option.noConfusion hn
            | succ i =>
              refine ⟨i, ?_, ?_⟩
              · rw [← hbitS]; exact hi
              · have : idx + 1 + i = idx + (i + 1) := by omega
                rw [this]; exact hn
      · simp only [hodd, if_false]
        rw [ih _ hlt]
        constructor
        · rintro ⟨i, hi, hn⟩
          exact ⟨i + 1, by rw [hbitS]; exact hi, by
            have : idx + (i + 1) = idx + 1 + i := by omega
            rw [this]; exact hn⟩
        · rintro ⟨i, hi, hn⟩
          cases i with
          | zero =>
            exfalso
            rw [hbit0] at hi
            simp only [decide_eq_true_eq] at hi
            exact hodd hi
          | succ i =>
            refine ⟨i, ?_, ?_⟩
            · rw [← hbitS]; exact hi
            · have : idx + 1 + i = idx + (i + 1) := by omega
              rw [this]; exact hn

theorem convertBitmaskLoop_some_testBit {SrcEnum DestEnum : Type}
    (cv : SrcEnum → Option DestEnum) (te : Nat → SrcEnum) (tm : DestEnum → Nat) :
    ∀ usrc idx dest d, convertBitmaskLoop cv te tm usrc idx dest = some d →
      ∀ j, d.testBit j = true ↔
        (dest.testBit j = true ∨
          ∃ i e, usrc.testBit i = true ∧ cv (te (idx + i)) = some e ∧
            (tm e).testBit j = true) := by
  intro usrc
  induction usrc using Nat.strong_induction_on with
  | _ usrc ih =>
    intro idx dest d hd j
    rw [convertBitmaskLoop] at hd
    by_cases h0 : usrc = 0
    · subst h0
      simp only [dite_true] at hd
      cases hd
      simp [Nat.zero_testBit]
    · simp only [h0, dite_false] at hd
      have hlt : usrc >>> 1 < usrc := by
        simp only [Nat.shiftRight_eq_div_pow, Nat.pow_one]; omega
      have hbit0 : usrc.testBit 0 = decide (usrc % 2 = 1) := Nat.testBit_zero usrc
      have hbitS : ∀ i, usrc.testBit (i + 1) = (usrc >>> 1).testBit i := by
        intro i
        rw [Nat.testBit_add_one, Nat.shiftRight_eq_div_pow, Nat.pow_one]
      by_cases hodd : usrc % 2 = 1
      · simp only [hodd, if_true] at hd
        cases hcv : cv (te idx) with
        | none => rw [hcv] at hd; exact Option.noConfusion hd
        | some e =>
          rw [hcv] at hd
          rw [ih _ hlt _ _ _ hd j]
          constructor
          · rintro (hor | ⟨i, e2, hi, hcv2, hm⟩)
            · rw [Nat.testBit_or] at hor
              rcases Bool.or_eq_true_iff.mp hor with hdest | htm
              · exact Or.inl hdest
              · refine Or.inr ⟨0, e, ?_, ?_, htm⟩
                · simp [hbit0, hodd]
                · simpa using hcv
            · refine Or.inr ⟨i + 1, e2, ?_, ?_, hm⟩
              · rw [hbitS]; exact hi
              · have : idx + (i + 1) = idx + 1 + i := by omega
                rw [this]; exact hcv2
          · rintro (hdest | ⟨i, e2, hi, hcv2, hm⟩)
            · exact Or.inl (by rw [Nat.testBit_or, hdest, Bool.true_or])
            · cases i with
              | zero =>
                rw [Nat.add_zero, hcv] at hcv2
                cases hcv2
                exact Or.inl (by rw [Nat.testBit_or, hm, Bool.or_true])
              | succ i =>
                refine Or.inr ⟨i, e2, ?_, ?_, hm⟩
                · rw [← hbitS]; exact hi
                · have : idx + 1 + i = idx + (i + 1) := by omega
                  rw [this]; exact hcv2
      · simp only [hodd, if_false] at hd
        rw [ih _ hlt _ _ _ hd j]
        constructor
        · rintro (hdest | ⟨i, e2, hi, hcv2, hm⟩)
          · exact Or.inl hdest
          · refine Or.inr ⟨i + 1, e2, ?_, ?_, hm⟩
            · rw [hbitS]; exact hi
            · have : idx + (i + 1) = idx + 1 + i := by omega
              rw [this]; exact hcv2
        · rintro (hdest | ⟨i, e2, hi, hcv2, hm⟩)
          · exact Or.inl hdest
          · cases i with
            | zero =>
              exfalso
              rw [hbit0] at hi
              simp only [decide_eq_true_eq] at hi
              exact hodd hi
            | succ i =>
              refine Or.inr ⟨i, e2, ?_, ?_, hm⟩
              · rw [← hbitS]; exact hi
              · have : idx + 1 + i = idx + (i + 1) := by omega
                rw [this]; exact hcv2

theorem convertBitmask_none_iff {SrcEnum DestEnum : Type}
    (src : Nat) (cv : SrcEnum → Option DestEnum) (te : Nat → SrcEnum)
    (tm : DestEnum → Nat) :
    convertBitmask src cv te tm = none ↔
      ∃ i, src.testBit i = true ∧ cv (te i) = none := by
  rw [convertBitmask, convertBitmaskLoop_none_iff]
  simp

theorem convertBitmask_some_testBit {SrcEnum DestEnum : Type}
    (src : Nat) (cv : SrcEnum → Option DestEnum) (te : Nat → SrcEnum)
    (tm : DestEnum → Nat) (d : Nat)
    (hd : convertBitmask src cv te tm = some d) :
    ∀ j, d.testBit j = true ↔
      ∃ i e, src.testBit i = true ∧ cv (te i) = some e ∧
        (tm e).testBit j = true := by
  intro j
  rw [convertBitmaskLoop_some_testBit cv te tm src 0 0 d hd j]
  simp [Nat.zero_testBit]

theorem toUnsigned32_natCast (n : Nat) (h : n < 4294967296) :
    toUnsigned32 (n : Int) = n := by
  unfold toUnsigned32
  rw [Int.emod_eq_of_lt (by positivity) (by exact_mod_cast h)]
  exact Int.toNat_ofNat n

theorem toSigned32_of_lt (n : Nat) (h : n < 2147483648) :
    toSigned32 n = (n : Int) := by
  unfold toSigned32
  rw [if_pos h]

theorem and_mask_eq_iff (m c : Nat) :
    m &&& c = m ↔ ∀ i, m.testBit i = true → c.testBit i = true := by
  constructor
  · intro h i hi
    have h2 : (m &&& c).testBit i = m.testBit i := by rw [h]
    rw [Nat.testBit_and, hi, Bool.true_and] at h2
    exact h2
  · intro h
    apply Nat.eq_of_testBit_eq
    intro i
    rw [Nat.testBit_and]
    cases hm : m.testBit i with
    | false => simp
    | true => simp [h i hm]

theorem lt_two_pow_of_testBit_lt (n k : Nat)
    (h : ∀ j, n.testBit j = true → j < k) : n < 2 ^ k := by
  by_contra hc
  push_neg at hc
  have hne : n >>> k ≠ 0 := by
    rw [Nat.shiftRight_eq_div_pow]
    have hpos : 1 ≤ n / 2 ^ k := (Nat.one_le_div_iff (Nat.pos_pow_of_pos k (by norm_num))).mpr hc
    omega
  obtain ⟨i, hi⟩ := Nat.ne_zero_implies_bit_true hne
  rw [Nat.testBit_shiftRight] at hi
  have := h (k + i) hi
  omega

theorem index2enum_bitmask_eq (i : Nat) :
    index2enum_bitmask i = ((2 ^ i : Nat) : Int) := by
  rw [index2enum_bitmask, Nat.one_shiftLeft]

theorem enumToMask_index_eq (e : Int) : enumToMask_index e = 2 ^ e.toNat := by
  rw [enumToMask_index, Nat.one_shiftLeft]

/-- Generic round-trip property of a legacy-to-wire / wire-to-legacy pair of
convertBitmask instances whose per-bit tables realize the finite
correspondence pairs (legacy bit position, wire bit position), with c the
mask of recognized legacy bits. -/
theorem maskRoundTrip
    (tblL tblA : Int → Option Int) (pairs : List (Nat × Nat)) (c : Nat)
    (hfst : ∀ i, c.testBit i = true ↔ ∃ p ∈ pairs, p.1 = i)
    (hL : ∀ p ∈ pairs, tblL ((2 ^ p.1 : Nat) : Int) = some (p.2 : Int))
    (hA : ∀ p ∈ pairs, tblA (p.2 : Int) = some ((2 ^ p.1 : Nat) : Int))
    (hNone : ∀ i, c.testBit i = false → tblL ((2 ^ i : Nat) : Int) = none)
    (h1 : ∀ p ∈ pairs, p.1 < 32) (h2 : ∀ p ∈ pairs, p.2 < 31) :
    (∀ m : Nat, m &&& c = m →
      (legacyToAidlMask tblL m).bind (aidlToLegacyMask tblA) = some m)
    ∧ (∀ m : Nat, m &&& c ≠ m → legacyToAidlMask tblL m = none) := by
  constructor
  · intro m hm
    have hrec : ∀ i, m.testBit i = true → ∃ p ∈ pairs, p.1 = i := fun i hi =>
      (hfst i).mp ((and_mask_eq_iff m c).mp hm i hi)
    -- the forward conversion succeeds
    have hnotnone :
        convertBitmask m tblL index2enum_bitmask enumToMask_index ≠ none := by
      intro hn
      rw [convertBitmask_none_iff] at hn
      obtain ⟨i, hi, hni⟩ := hn
      obtain ⟨p, hp, rfl⟩ := hrec i hi
      rw [index2enum_bitmask_eq, hL p hp] at hni
      exact Option.noConfusion hni
    obtain ⟨d, hd⟩ := Option.ne_none_iff_exists'.mp hnotnone
    have hchar := convertBitmask_some_testBit m tblL
      index2enum_bitmask enumToMask_index d hd
    simp only [index2enum_bitmask_eq, enumToMask_index_eq] at hchar
    -- characterize the bits of the forward image
    have hdbit : ∀ j, d.testBit j = true ↔
        ∃ p ∈ pairs, m.testBit p.1 = true ∧ p.2 = j := by
      intro j
      rw [hchar j]
      constructor
      · rintro ⟨i, e, hi, he, hm2⟩
        obtain ⟨p, hp, rfl⟩ := hrec i hi
        rw [hL p hp] at he
        cases he
        rw [Int.toNat_ofNat, Nat.testBit_two_pow] at hm2
        simp only [decide_eq_true_eq] at hm2
        exact ⟨p, hp, hi, hm2⟩
      · rintro ⟨p, hp, hpm, rfl⟩
        refine ⟨p.1, (p.2 : Int), hpm, hL p hp, ?_⟩
        rw [Int.toNat_ofNat, Nat.testBit_two_pow]
        simp
    have hdlt : d < 2 ^ 31 := lt_two_pow_of_testBit_lt d 31 (by
      intro j hj
      obtain ⟨p, hp, _, rfl⟩ := (hdbit j).mp hj
      exact h2 p hp)
    have hforward : legacyToAidlMask tblL m = some ((d : Int)) := by
      rw [legacyToAidlMask, hd, Option.map_some', toSigned32_of_lt d hdlt]
    rw [hforward, Option.some_bind]
    -- the backward conversion succeeds and reproduces m
    rw [aidlToLegacyMask, toUnsigned32_natCast d (by
      have : (2 : Nat) ^ 31 < 4294967296 := by norm_num
      omega)]
    have hBnn :
        convertBitmask d tblA index2enum_index enumToMask_bitmask ≠ none := by
      intro hn
      rw [convertBitmask_none_iff] at hn
      obtain ⟨j, hj, hnj⟩ := hn
      obtain ⟨p, hp, hpm, rfl⟩ := (hdbit j).mp hj
      rw [index2enum_index, hA p hp] at hnj
      exact Option.noConfusion hnj
    obtain ⟨d2, hd2⟩ := Option.ne_none_iff_exists'.mp hBnn
    have hchar2 := convertBitmask_some_testBit d tblA
      index2enum_index enumToMask_bitmask d2 hd2
    simp only [index2enum_index, enumToMask_bitmask] at hchar2
    have hmain : ∀ k, d2.testBit k = true ↔ m.testBit k = true := by
      intro k
      rw [hchar2 k]
      constructor
      · rintro ⟨j, e, hj, he, hk⟩
        obtain ⟨p, hp, hpm, rfl⟩ := (hdbit j).mp hj
        rw [hA p hp] at he
        cases he
        rw [toUnsigned32_natCast (2 ^ p.1) (by
          have : (2 : Nat) ^ p.1 < 2 ^ 32 :=
            Nat.pow_lt_pow_right (by norm_num) (h1 p hp)
          omega), Nat.testBit_two_pow] at hk
        simp only [decide_eq_true_eq] at hk
        rw [← hk]
        exact hpm
      · intro hmk
        obtain ⟨p, hp, rfl⟩ := hrec k hmk
        refine ⟨p.2, ((2 ^ p.1 : Nat) : Int), ?_, hA p hp, ?_⟩
        · exact (hdbit p.2).mpr ⟨p, hp, hmk, rfl⟩
        · rw [toUnsigned32_natCast (2 ^ p.1) (by
            have : (2 : Nat) ^ p.1 < 2 ^ 32 :=
              Nat.pow_lt_pow_right (by norm_num) (h1 p hp)
            omega)]
          exact Nat.testBit_two_pow_self
    have : d2 = m := by
      apply Nat.eq_of_testBit_eq
      intro k
      cases hmk : m.testBit k with
      | true => exact (hmain k).mpr hmk
      | false =>
        cases hdk : d2.testBit k with
        | false => rfl
        | true => rw [← hmk, ← (hmain k).mp hdk]
    rw [hd2, this]
  · intro m hm
    rw [legacyToAidlMask]
    have hnone :
        convertBitmask m tblL index2enum_bitmask enumToMask_index = none := by
      rw [convertBitmask_none_iff]
      obtain ⟨i, hi, hci⟩ : ∃ i, m.testBit i = true ∧ c.testBit i = false := by
        by_contra hno
        push_neg at hno
        apply hm
        rw [and_mask_eq_iff]
        intro i hi
        have := hno i hi
        cases hc : c.testBit i with
        | true => rfl
        | false => exact absurd hc this
      exact ⟨i, hi, by rw [index2enum_bitmask_eq]; exact hNone i hci⟩
    rw [hnone]
    rfl

/-- Assembles the recognized-bit characterization of a mask constant from a
width bound and a decidable check below the width. -/
theorem hfst_of_width (c w : Nat) (pairs : List (Nat × Nat))
    (hcw : c < 2 ^ w) (hpw : ∀ p ∈ pairs, p.1 < w)
    (hlow : ∀ i, i < w → (c.testBit i = true ↔ ∃ p ∈ pairs, p.1 = i)) :
    ∀ i, c.testBit i = true ↔ ∃ p ∈ pairs, p.1 = i := by
  intro i
  by_cases hi : i < w
  · exact hlow i hi
  · constructor
    · intro h
      have hfalse : c.testBit i = false :=
        Nat.testBit_lt_two_pow
          (lt_of_lt_of_le hcw (Nat.pow_le_pow_right (by norm_num) (le_of_not_lt hi)))
      rw [hfalse] at h
      exact Bool.noConfusion h
    · rintro ⟨p, hp, rfl⟩
      exact absurd (hpw p hp) hi

/-- Assembles the unrecognized-bit rejection property of a per-bit table from
a large-argument rejection lemma and a decidable check below the width. -/
theorem hNone_of_width (tbl : Int → Option Int) (c w : Nat)
    (hbig : ∀ x : Int, ((2 ^ w : Nat) : Int) ≤ x → tbl x = none)
    (hlow : ∀ i, i < w → c.testBit i = false → tbl ((2 ^ i : Nat) : Int) = none) :
    ∀ i, c.testBit i = false → tbl ((2 ^ i : Nat) : Int) = none := by
  intro i hci
  by_cases hi : i < w
  · exact hlow i hi hci
  · apply hbig
    have : (2 : Nat) ^ w ≤ 2 ^ i := Nat.pow_le_pow_right (by norm_num) (le_of_not_lt hi)
    exact_mod_cast this

theorem legacy2aidl_AudioPortConfigType_big :
    ∀ x : Int, 32 ≤ x → legacy2aidl_AudioPortConfigType x = none := by
  intro x hx
  unfold legacy2aidl_AudioPortConfigType
  split <;> first | rfl | omega

theorem legacy2aidl_int_AudioGainMode_big :
    ∀ x : Int, 8 ≤ x → legacy2aidl_int_AudioGainMode x = none := by
  intro x hx
  unfold legacy2aidl_int_AudioGainMode
  split <;> first | rfl | omega

theorem legacy2aidl_audio_input_flags_t_AudioInputFlags_big :
    ∀ x : Int, 256 ≤ x → legacy2aidl_audio_input_flags_t_AudioInputFlags x = none := by
  intro x hx
  unfold legacy2aidl_audio_input_flags_t_AudioInputFlags
  split <;> first | rfl | omega

theorem legacy2aidl_audio_output_flags_t_AudioOutputFlags_big :
    ∀ x : Int, 131072 ≤ x → legacy2aidl_audio_output_flags_t_AudioOutputFlags x = none := by
  intro x hx
  unfold legacy2aidl_audio_output_flags_t_AudioOutputFlags
  split <;> first | rfl | omega

theorem legacy2aidl_audio_flags_mask_t_AudioFlag_big :
    ∀ x : Int, 16384 ≤ x → legacy2aidl_audio_flags_mask_t_AudioFlag x = none := by
  intro x hx
  unfold legacy2aidl_audio_flags_mask_t_AudioFlag
  split <;> first | rfl | omega

theorem config_mask_roundtrip :
    (∀ m : Nat, m &&& 23 = m →
      (legacy2aidl_config_mask_int32_t m).bind aidl2legacy_int32_t_config_mask = some m)
    ∧ (∀ m : Nat, m &&& 23 ≠ m → legacy2aidl_config_mask_int32_t m = none) :=
  maskRoundTrip legacy2aidl_AudioPortConfigType aidl2legacy_AudioPortConfigType
    [(0, 0), (1, 1), (2, 2), (4, 4)] 23
    (hfst_of_width 23 5 _ (by norm_num) (by decide) (by decide))
    (by decide) (by decide)
    (hNone_of_width legacy2aidl_AudioPortConfigType 23 5
      (by
        intro x hx
        apply legacy2aidl_AudioPortConfigType_big
        norm_num at hx
        exact hx)
      (by decide))
    (by decide) (by decide)

theorem gain_mode_mask_roundtrip :
    (∀ m : Nat, m &&& 7 = m →
      (legacy2aidl_audio_gain_mode_t_int32_t m).bind aidl2legacy_int32_t_audio_gain_mode_t = some m)
    ∧ (∀ m : Nat, m &&& 7 ≠ m → legacy2aidl_audio_gain_mode_t_int32_t m = none) :=
  maskRoundTrip legacy2aidl_int_AudioGainMode aidl2legacy_AudioGainMode_int
    [(0, 0), (1, 1), (2, 2)] 7
    (hfst_of_width 7 3 _ (by norm_num) (by decide) (by decide))
    (by decide) (by decide)
    (hNone_of_width legacy2aidl_int_AudioGainMode 7 3
      (by
        intro x hx
        apply legacy2aidl_int_AudioGainMode_big
        norm_num at hx
        exact hx)
      (by decide))
    (by decide) (by decide)

theorem input_flags_mask_roundtrip :
    (∀ m : Nat, m &&& 255 = m →
      (legacy2aidl_audio_input_flags_mask m).bind aidl2legacy_audio_input_flags_mask = some m)
    ∧ (∀ m : Nat, m &&& 255 ≠ m → legacy2aidl_audio_input_flags_mask m = none) :=
  maskRoundTrip legacy2aidl_audio_input_flags_t_AudioInputFlags
    aidl2legacy_AudioInputFlags_audio_input_flags_t
    [(0, 0), (1, 1), (2, 2), (3, 3), (4, 4), (5, 5), (6, 6), (7, 7)] 255
    (hfst_of_width 255 8 _ (by norm_num) (by decide) (by decide))
    (by decide) (by decide)
    (hNone_of_width legacy2aidl_audio_input_flags_t_AudioInputFlags 255 8
      (by
        intro x hx
        apply legacy2aidl_audio_input_flags_t_AudioInputFlags_big
        norm_num at hx
        exact hx)
      (by decide))
    (by decide) (by decide)

theorem output_flags_mask_roundtrip :
    (∀ m : Nat, m &&& 124927 = m →
      (legacy2aidl_audio_output_flags_mask m).bind aidl2legacy_audio_output_flags_mask = some m)
    ∧ (∀ m : Nat, m &&& 124927 ≠ m → legacy2aidl_audio_output_flags_mask m = none) :=
  maskRoundTrip legacy2aidl_audio_output_flags_t_AudioOutputFlags
    aidl2legacy_AudioOutputFlags_audio_output_flags_t
    [(0, 0), (1, 1), (2, 2), (3, 3), (4, 4), (5, 5), (6, 6), (7, 7), (8, 8),
     (9, 9), (10, 10), (13, 11), (14, 12), (15, 13), (16, 14)] 124927
    (hfst_of_width 124927 17 _ (by norm_num) (by decide) (by decide))
    (by decide) (by decide)
    (hNone_of_width legacy2aidl_audio_output_flags_t_AudioOutputFlags 124927 17
      (by
        intro x hx
        apply legacy2aidl_audio_output_flags_t_AudioOutputFlags_big
        norm_num at hx
        exact hx)
      (by decide))
    (by decide) (by decide)

theorem audio_flags_mask_roundtrip :
    (∀ m : Nat, m &&& 16383 = m →
      (legacy2aidl_audio_flags_mask_t_int32_t_mask m).bind
        aidl2legacy_int32_t_audio_flags_mask_t_mask = some m)
    ∧ (∀ m : Nat, m &&& 16383 ≠ m →
        legacy2aidl_audio_flags_mask_t_int32_t_mask m = none) :=
  maskRoundTrip legacy2aidl_audio_flags_mask_t_AudioFlag
    aidl2legacy_AudioFlag_audio_flags_mask_t
    [(0, 0), (1, 1), (2, 2), (3, 3), (4, 4), (5, 5), (6, 6), (7, 7), (8, 8),
     (9, 9), (10, 10), (11, 11), (12, 12), (13, 13)] 16383
    (hfst_of_width 16383 14 _ (by norm_num) (by decide) (by decide))
    (by decide) (by decide)
    (hNone_of_width legacy2aidl_audio_flags_mask_t_AudioFlag 16383 14
      (by
        intro x hx
        apply legacy2aidl_audio_flags_mask_t_AudioFlag_big
        norm_num at hx
        exact hx)
      (by decide))
    (by decide) (by decide)

theorem rt_AudioPortConfigType : ∀ x y : Int,
    legacy2aidl_AudioPortConfigType x = some y →
    aidl2legacy_AudioPortConfigType y = some x := by
  intro x y h
  unfold legacy2aidl_AudioPortConfigType at h
  split at h <;>
    first
    | exact Option.noConfusion h
    | (injection h with h2; subst h2; decide)

theorem rt_AudioIoConfigEvent : ∀ x y : Int,
    legacy2aidl_audio_io_config_event_AudioIoConfigEvent x = some y →
    aidl2legacy_AudioIoConfigEvent_audio_io_config_event y = some x := by
  intro x y h
  unfold legacy2aidl_audio_io_config_event_AudioIoConfigEvent at h
  split at h <;>
    first
    | exact Option.noConfusion h
    | (injection h with h2; subst h2; decide)

theorem rt_AudioPortRole : ∀ x y : Int,
    legacy2aidl_audio_port_role_t_AudioPortRole x = some y →
    aidl2legacy_AudioPortRole_audio_port_role_t y = some x := by
  intro x y h
  unfold legacy2aidl_audio_port_role_t_AudioPortRole at h
  split at h <;>
    first
    | exact Option.noConfusion h
    | (injection h with h2; subst h2; decide)

theorem rt_AudioPortType : ∀ x y : Int,
    legacy2aidl_audio_port_type_t_AudioPortType x = some y →
    aidl2legacy_AudioPortType_audio_port_type_t y = some x := by
  intro x y h
  unfold legacy2aidl_audio_port_type_t_AudioPortType at h
  split at h <;>
    first
    | exact Option.noConfusion h
    | (injection h with h2; subst h2; decide)

theorem rt_AudioGainMode : ∀ x y : Int,
    legacy2aidl_int_AudioGainMode x = some y →
    aidl2legacy_AudioGainMode_int y = some x := by
  intro x y h
  unfold legacy2aidl_int_AudioGainMode at h
  split at h <;>
    first
    | exact Option.noConfusion h
    | (injection h with h2; subst h2; decide)

theorem rt_AudioInputFlags : ∀ x y : Int,
    legacy2aidl_audio_input_flags_t_AudioInputFlags x = some y →
    aidl2legacy_AudioInputFlags_audio_input_flags_t y = some x := by
  intro x y h
  unfold legacy2aidl_audio_input_flags_t_AudioInputFlags at h
  split at h <;>
    first
    | exact Option.noConfusion h
    | (injection h with h2; subst h2; decide)

theorem rt_AudioOutputFlags : ∀ x y : Int,
    legacy2aidl_audio_output_flags_t_AudioOutputFlags x = some y →
    aidl2legacy_AudioOutputFlags_audio_output_flags_t y = some x := by
  intro x y h
  unfold legacy2aidl_audio_output_flags_t_AudioOutputFlags at h
  split at h <;>
    first
    | exact Option.noConfusion h
    | (injection h with h2; subst h2; decide)

theorem rt_AudioStreamType : ∀ x y : Int,
    legacy2aidl_audio_stream_type_t_AudioStreamType x = some y →
    aidl2legacy_AudioStreamType_audio_stream_type_t y = some x := by
  intro x y h
  unfold legacy2aidl_audio_stream_type_t_AudioStreamType at h
  split at h <;>
    first
    | exact Option.noConfusion h
    | (injection h with h2; subst h2; decide)

theorem rt_AudioSourceType : ∀ x y : Int,
    legacy2aidl_audio_source_t_AudioSourceType x = some y →
    aidl2legacy_AudioSourceType_audio_source_t y = some x := by
  intro x y h
  unfold legacy2aidl_audio_source_t_AudioSourceType at h
  split at h <;>
    first
    | exact Option.noConfusion h
    | (injection h with h2; subst h2; decide)

theorem rt_AudioContentType : ∀ x y : Int,
    legacy2aidl_audio_content_type_t_AudioContentType x = some y →
    aidl2legacy_AudioContentType_audio_content_type_t y = some x := by
  intro x y h
  unfold legacy2aidl_audio_content_type_t_AudioContentType at h
  split at h <;>
    first
    | exact Option.noConfusion h
    | (injection h with h2; subst h2; decide)

theorem rt_AudioUsage : ∀ x y : Int,
    legacy2aidl_audio_usage_t_AudioUsage x = some y →
    aidl2legacy_AudioUsage_audio_usage_t y = some x := by
  intro x y h
  unfold legacy2aidl_audio_usage_t_AudioUsage at h
  split at h <;>
    first
    | exact Option.noConfusion h
    | (injection h with h2; subst h2; decide)

theorem rt_AudioFlag : ∀ x y : Int,
    legacy2aidl_audio_flags_mask_t_AudioFlag x = some y →
    aidl2legacy_AudioFlag_audio_flags_mask_t y = some x := by
  intro x y h
  unfold legacy2aidl_audio_flags_mask_t_AudioFlag at h
  split at h <;>
    first
    | exact Option.noConfusion h
    | (injection h with h2; subst h2; decide)

theorem rt_AudioEncapsulationMode : ∀ x y : Int,
    legacy2aidl_AudioEncapsulationMode_audio_encapsulation_mode_t x = some y →
    aidl2legacy_audio_encapsulation_mode_t_AudioEncapsulationMode y = some x := by
  intro x y h
  unfold legacy2aidl_AudioEncapsulationMode_audio_encapsulation_mode_t at h
  split at h <;>
    first
    | exact Option.noConfusion h
    | (injection h with h2; subst h2; decide)

theorem directionMedia_eq_some_iff : ∀ r t : Int, ∀ d : Direction,
    directionMedia r t = some d ↔
      (r = 1 ∧ t = 1 ∧ d = Direction.INPUT) ∨
      (r = 2 ∧ t = 1 ∧ d = Direction.OUTPUT) ∨
      (r = 1 ∧ t = 2 ∧ d = Direction.OUTPUT) ∨
      (r = 2 ∧ t = 2 ∧ d = Direction.INPUT) := by
  intro r t d
  constructor
  · intro h
    unfold directionMedia at h
    split at h <;> (try split at h) <;> simp_all
  · rintro (⟨h1, h2, h3⟩ | ⟨h1, h2, h3⟩ | ⟨h1, h2, h3⟩ | ⟨h1, h2, h3⟩) <;>
      subst h1 <;> subst h2 <;> subst h3 <;> rfl

theorem directionLegacy_eq_some_iff : ∀ r t : Int, ∀ d : Direction,
    directionLegacy r t = some d ↔
      (r = 1 ∧ t = 1 ∧ d = Direction.INPUT) ∨
      (r = 2 ∧ t = 1 ∧ d = Direction.OUTPUT) ∨
      (r = 1 ∧ t = 2 ∧ d = Direction.OUTPUT) ∨
      (r = 2 ∧ t = 2 ∧ d = Direction.INPUT) := by
  intro r t d
  constructor
  · intro h
    unfold directionLegacy at h
    split at h <;> (try split at h) <;> simp_all
  · rintro (⟨h1, h2, h3⟩ | ⟨h1, h2, h3⟩ | ⟨h1, h2, h3⟩ | ⟨h1, h2, h3⟩) <;>
      subst h1 <;> subst h2 <;> subst h3 <;> rfl

/-- Claim C1: for every bitmask conversion built on the generic transcoder
convertBitmask and every source mask: if any set bit of the source fails the
per-bit enum conversion then the whole conversion returns an error (no
partial mask is produced); and when the conversion succeeds, every set bit of
the output mask is the image under the per-bit conversion of some set bit of
the input mask. -/
theorem convertBitmask_abort_and_provenance
    {SrcEnum DestEnum : Type} (src : Nat) (cv : SrcEnum → Option DestEnum)
    (te : Nat → SrcEnum) (tm : DestEnum → Nat) :
    ((∃ i, src.testBit i = true ∧ cv (te i) = none) →
      convertBitmask src cv te tm = none)
    ∧ (∀ d, convertBitmask src cv te tm = some d →
        ∀ j, d.testBit j = true →
          ∃ i e, src.testBit i = true ∧ cv (te i) = some e ∧
            (tm e).testBit j = true) := by
  constructor
  · intro h
    rw [convertBitmask_none_iff]
    exact h
  · intro d hd j hj
    exact (convertBitmask_some_testBit src cv te tm d hd j).mp hj

/-- Witness for C1: the mask 2 has bit 1 set, bit 1 fails the per-bit
conversion below, and so the whole conversion fails. -/
theorem convertBitmask_abort_witness :
    convertBitmask 2
      (fun i : Nat => if i = 0 then some 0 else (none : Option Nat))
      (fun i => i) (fun e => 2 ^ e) = none :=
  (convertBitmask_abort_and_provenance 2
    (fun i : Nat => if i = 0 then some 0 else (none : Option Nat))
    (fun i => i) (fun e => 2 ^ e)).1 ⟨1, by decide, by decide⟩

/-- Claim C2: for each bitmask pair (port-config mask, gain-mode mask, input
flags mask, output flags mask, audio flags mask), every legacy mask composed
only of recognized bits survives the legacy-to-wire-to-legacy round trip, and
every legacy mask containing an unrecognized bit makes the legacy-to-wire
conversion fail as a whole.  The recognized-bit masks are 0x17 (the
port-config table has no case for the GAIN bit 0x8), 0x7, 0xff, 0x1e7ff (the
output-flag constants skip bits 11 and 12) and 0x3fff. -/
theorem bitmask_pairs_roundtrip_and_reject :
    ((∀ m : Nat, m &&& 23 = m →
      (legacy2aidl_config_mask_int32_t m).bind aidl2legacy_int32_t_config_mask = some m)
    ∧ (∀ m : Nat, m &&& 23 ≠ m → legacy2aidl_config_mask_int32_t m = none))
    ∧ ((∀ m : Nat, m &&& 7 = m →
      (legacy2aidl_audio_gain_mode_t_int32_t m).bind aidl2legacy_int32_t_audio_gain_mode_t = some m)
    ∧ (∀ m : Nat, m &&& 7 ≠ m → legacy2aidl_audio_gain_mode_t_int32_t m = none))
    ∧ ((∀ m : Nat, m &&& 255 = m →
      (legacy2aidl_audio_input_flags_mask m).bind aidl2legacy_audio_input_flags_mask = some m)
    ∧ (∀ m : Nat, m &&& 255 ≠ m → legacy2aidl_audio_input_flags_mask m = none))
    ∧ ((∀ m : Nat, m &&& 124927 = m →
      (legacy2aidl_audio_output_flags_mask m).bind aidl2legacy_audio_output_flags_mask = some m)
    ∧ (∀ m : Nat, m &&& 124927 ≠ m → legacy2aidl_audio_output_flags_mask m = none))
    ∧ ((∀ m : Nat, m &&& 16383 = m →
      (legacy2aidl_audio_flags_mask_t_int32_t_mask m).bind
        aidl2legacy_int32_t_audio_flags_mask_t_mask = some m)
    ∧ (∀ m : Nat, m &&& 16383 ≠ m →
        legacy2aidl_audio_flags_mask_t_int32_t_mask m = none)) :=
  ⟨config_mask_roundtrip, gain_mode_mask_roundtrip, input_flags_mask_roundtrip,
   output_flags_mask_roundtrip, audio_flags_mask_roundtrip⟩

/-- Witness for C2: the recognized config mask 0x13 round-trips, and the
unrecognized GAIN bit 0x8 makes the conversion fail. -/
theorem bitmask_pairs_roundtrip_witness :
    (legacy2aidl_config_mask_int32_t 19).bind aidl2legacy_int32_t_config_mask = some 19
    ∧ legacy2aidl_config_mask_int32_t 8 = none :=
  ⟨bitmask_pairs_roundtrip_and_reject.1.1 19 (by decide),
   bitmask_pairs_roundtrip_and_reject.1.2 8 (by decide)⟩

/-- Counterexample to C3 as stated: the legacy AUDIO_FLAG_NONE value (0) is
rejected by legacy2aidl_audio_flags_mask_t_AudioFlag, so applying legacy2aidl
and then aidl2legacy at AUDIO_FLAG_NONE does not return the original value. -/
theorem audio_flag_none_no_roundtrip :
    (legacy2aidl_audio_flags_mask_t_AudioFlag 0).bind
      aidl2legacy_AudioFlag_audio_flags_mask_t ≠ some 0 := by
  decide

/-- Claim C3 (amended): for every enum pair defined in this system and for
every legacy enum value accepted by the legacy2aidl direction, applying
legacy2aidl and then aidl2legacy returns the original legacy value; the
legacy AUDIO_FLAG_NONE value is rejected by legacy2aidl (an intentional
asymmetry) and is therefore outside the round trip. -/
theorem enum_pairs_roundtrip :
    (∀ x y : Int, legacy2aidl_AudioPortConfigType x = some y →
      aidl2legacy_AudioPortConfigType y = some x)
    ∧ (∀ x y : Int, legacy2aidl_audio_io_config_event_AudioIoConfigEvent x = some y →
      aidl2legacy_AudioIoConfigEvent_audio_io_config_event y = some x)
    ∧ (∀ x y : Int, legacy2aidl_audio_port_role_t_AudioPortRole x = some y →
      aidl2legacy_AudioPortRole_audio_port_role_t y = some x)
    ∧ (∀ x y : Int, legacy2aidl_audio_port_type_t_AudioPortType x = some y →
      aidl2legacy_AudioPortType_audio_port_type_t y = some x)
    ∧ (∀ x y : Int, legacy2aidl_int_AudioGainMode x = some y →
      aidl2legacy_AudioGainMode_int y = some x)
    ∧ (∀ x y : Int, legacy2aidl_audio_input_flags_t_AudioInputFlags x = some y →
      aidl2legacy_AudioInputFlags_audio_input_flags_t y = some x)
    ∧ (∀ x y : Int, legacy2aidl_audio_output_flags_t_AudioOutputFlags x = some y →
      aidl2legacy_AudioOutputFlags_audio_output_flags_t y = some x)
    ∧ (∀ x y : Int, legacy2aidl_audio_stream_type_t_AudioStreamType x = some y →
      aidl2legacy_AudioStreamType_audio_stream_type_t y = some x)
    ∧ (∀ x y : Int, legacy2aidl_audio_source_t_AudioSourceType x = some y →
      aidl2legacy_AudioSourceType_audio_source_t y = some x)
    ∧ (∀ x y : Int, legacy2aidl_audio_content_type_t_AudioContentType x = some y →
      aidl2legacy_AudioContentType_audio_content_type_t y = some x)
    ∧ (∀ x y : Int, legacy2aidl_audio_usage_t_AudioUsage x = some y →
      aidl2legacy_AudioUsage_audio_usage_t y = some x)
    ∧ (∀ x y : Int, legacy2aidl_audio_flags_mask_t_AudioFlag x = some y →
      aidl2legacy_AudioFlag_audio_flags_mask_t y = some x)
    ∧ (∀ x y : Int, legacy2aidl_AudioEncapsulationMode_audio_encapsulation_mode_t x = some y →
      aidl2legacy_audio_encapsulation_mode_t_AudioEncapsulationMode y = some x) :=
  ⟨rt_AudioPortConfigType, rt_AudioIoConfigEvent, rt_AudioPortRole,
   rt_AudioPortType, rt_AudioGainMode, rt_AudioInputFlags, rt_AudioOutputFlags,
   rt_AudioStreamType, rt_AudioSourceType, rt_AudioContentType, rt_AudioUsage,
   rt_AudioFlag, rt_AudioEncapsulationMode⟩

/-- Witness for the amended C3: the accepted legacy config-mask constant 0x1
maps to the wire index 0 and back. -/
theorem enum_pairs_roundtrip_witness :
    legacy2aidl_AudioPortConfigType 1 = some 0
    ∧ aidl2legacy_AudioPortConfigType 0 = some 1 :=
  ⟨by decide, enum_pairs_roundtrip.1 1 0 (by decide)⟩

/-- Counterexample to C4 as stated: the role SOURCE (1) combined with type
MIX (2) does not make either direction overload fail. -/
theorem direction_source_mix_not_error :
    directionMedia 1 2 ≠ none ∧ directionLegacy 1 2 ≠ none := by
  decide

/-- Claim C4 (amended): for the input pair role=SOURCE, type=MIX, the
Direction computation succeeds in both its wire-typed and legacy-typed
overloads and yields OUTPUT; the combination is one of the four valid
(role, type) pairs. -/
theorem direction_source_mix_is_output :
    directionMedia 1 2 = some Direction.OUTPUT
    ∧ directionLegacy 1 2 = some Direction.OUTPUT := by
  decide

/-- Claim C10: both direction overloads succeed on exactly four (role, type)
pairs and no others: (SOURCE, DEVICE) yields INPUT, (SINK, DEVICE) yields
OUTPUT, (SOURCE, MIX) yields OUTPUT, (SINK, MIX) yields INPUT; every other
combination of role and type returns an error. -/
theorem direction_total_characterization : ∀ r t : Int, ∀ d : Direction,
    (directionMedia r t = some d ↔
      (r = 1 ∧ t = 1 ∧ d = Direction.INPUT) ∨
      (r = 2 ∧ t = 1 ∧ d = Direction.OUTPUT) ∨
      (r = 1 ∧ t = 2 ∧ d = Direction.OUTPUT) ∨
      (r = 2 ∧ t = 2 ∧ d = Direction.INPUT))
    ∧ (directionLegacy r t = some d ↔
      (r = 1 ∧ t = 1 ∧ d = Direction.INPUT) ∨
      (r = 2 ∧ t = 1 ∧ d = Direction.OUTPUT) ∨
      (r = 1 ∧ t = 2 ∧ d = Direction.OUTPUT) ∨
      (r = 2 ∧ t = 2 ∧ d = Direction.INPUT)) :=
  fun r t d => ⟨directionMedia_eq_some_iff r t d, directionLegacy_eq_some_iff r t d⟩

/-- Witness for C10: the pair (SINK, DEVICE) is valid and classified as
OUTPUT by both overloads. -/
theorem direction_total_characterization_witness :
    directionMedia 2 1 = some Direction.OUTPUT
    ∧ directionLegacy 2 1 = some Direction.OUTPUT :=
  ⟨((direction_total_characterization 2 1 Direction.OUTPUT).1).mpr (by decide),
   ((direction_total_characterization 2 1 Direction.OUTPUT).2).mpr (by decide)⟩

theorem takeWhile_length_ge (p : Char → Bool) :
    ∀ (l : List Char) (n : Nat), n ≤ l.length →
    (∀ i, i < n → p (l.getD i nullChar) = true) →
    n ≤ (l.takeWhile p).length := by
  intro l
  induction l with
  | nil =>
    intro n hn _
    simpa using hn
  | cons a l ih =>
    intro n hn hp
    cases n with
    | zero => exact Nat.zero_le _
    | succ n =>
      have ha : p a = true := by
        have := hp 0 (Nat.succ_pos n)
        simpa using this
      rw [List.takeWhile_cons, if_pos ha]
      simp only [List.length_cons, Nat.succ_le_succ_iff]
      apply ih n (by simpa using hn)
      intro i hi
      have := hp (i + 1) (Nat.succ_lt_succ hi)
      simpa using this

/-- Claim C9: a legacy character buffer of capacity maxSize whose first
maxSize characters are all non-terminators makes legacy2aidl_string fail
(buffer-full-no-terminator is a read-path failure). -/
theorem legacy2aidl_string_full_buffer_fails :
    ∀ (legacy : List Char) (maxSize : Nat), maxSize ≤ legacy.length →
    (∀ i, i < maxSize → legacy.getD i nullChar ≠ nullChar) →
    legacy2aidl_string legacy maxSize = none := by
  intro legacy maxSize hlen hno
  unfold legacy2aidl_string
  rw [if_pos]
  unfold strnlen
  have h1 : maxSize ≤ (legacy.takeWhile (fun c => c != nullChar)).length := by
    apply takeWhile_length_ge _ legacy maxSize hlen
    intro i hi
    have := hno i hi
    simpa using this
  exact Nat.min_eq_right h1

/-- Witness for C9: an address buffer of capacity
AUDIO_DEVICE_MAX_ADDRESS_LEN (32) completely filled with non-terminator
characters fails to convert. -/
theorem legacy2aidl_string_full_buffer_witness :
    legacy2aidl_string (List.replicate 32 'A') AUDIO_DEVICE_MAX_ADDRESS_LEN = none :=
  legacy2aidl_string_full_buffer_fails (List.replicate 32 'A') 32
    (by decide) (by decide)

/-- Claim C6: in the mix-extension use-case converters (both directions), a
SOURCE port role (1) maps the wire stream-type value to and from the legacy
stream member, and a SINK port role (2) maps the wire source-type value to
and from the legacy source member; with role SOURCE the wire source member is
rejected and vice versa. -/
theorem mix_ext_usecase_role_mapping :
    (∀ v : Int, aidl2legacy_AudioPortConfigMixExtUseCase
        (AudioPortConfigMixExtUseCase.stream v) 1 =
      (aidl2legacy_AudioStreamType_audio_stream_type_t v).map
        audio_port_config_mix_ext_usecase.stream)
    ∧ (∀ v : Int, aidl2legacy_AudioPortConfigMixExtUseCase
        (AudioPortConfigMixExtUseCase.source v) 2 =
      (aidl2legacy_AudioSourceType_audio_source_t v).map
        audio_port_config_mix_ext_usecase.source)
    ∧ (∀ v : Int, aidl2legacy_AudioPortConfigMixExtUseCase
        (AudioPortConfigMixExtUseCase.source v) 1 = none)
    ∧ (∀ v : Int, aidl2legacy_AudioPortConfigMixExtUseCase
        (AudioPortConfigMixExtUseCase.stream v) 2 = none)
    ∧ (∀ v : Int, legacy2aidl_AudioPortConfigMixExtUseCase
        (audio_port_config_mix_ext_usecase.stream v) 1 =
      (legacy2aidl_audio_stream_type_t_AudioStreamType v).map
        AudioPortConfigMixExtUseCase.stream)
    ∧ (∀ v : Int, legacy2aidl_AudioPortConfigMixExtUseCase
        (audio_port_config_mix_ext_usecase.source v) 2 =
      (legacy2aidl_audio_source_t_AudioSourceType v).map
        AudioPortConfigMixExtUseCase.source) := by
  refine ⟨?_, ?_, ?_, ?_, ?_, ?_⟩
  · intro v
    cases h : aidl2legacy_AudioStreamType_audio_stream_type_t v <;>
      simp [aidl2legacy_AudioPortConfigMixExtUseCase, h]
  · intro v
    cases h : aidl2legacy_AudioSourceType_audio_source_t v <;>
      simp [aidl2legacy_AudioPortConfigMixExtUseCase, h]
  · intro v
    simp [aidl2legacy_AudioPortConfigMixExtUseCase]
  · intro v
    simp [aidl2legacy_AudioPortConfigMixExtUseCase]
  · intro v
    cases h : legacy2aidl_audio_stream_type_t_AudioStreamType v <;>
      simp [legacy2aidl_AudioPortConfigMixExtUseCase, h]
  · intro v
    cases h : legacy2aidl_audio_source_t_AudioSourceType v <;>
      simp [legacy2aidl_AudioPortConfigMixExtUseCase, h]

/-- Witness for C6: with role SOURCE the wire stream value 4 (MUSIC) lands in
the legacy stream member as AUDIO_STREAM_MUSIC (3). -/
theorem mix_ext_usecase_role_mapping_witness :
    aidl2legacy_AudioPortConfigMixExtUseCase
      (AudioPortConfigMixExtUseCase.stream 4) 1 =
    some (audio_port_config_mix_ext_usecase.stream 3) := by
  rw [mix_ext_usecase_role_mapping.1 4]
  decide

/-- Claim C5: for every wire gain config whose mode has the joint bit set
(and whose role/type pair yields a valid Direction), the conversion expects
exactly one per-channel value regardless of the channel mask and of the
channel-count functions: it succeeds only when the values sequence has length
exactly 1 and fails whenever the length differs from 1. -/
theorem gain_config_joint_expects_one_value :
    ∀ (inMaskCount outMaskCount : Nat → Nat) (aidl : AudioGainConfig) (role typ : Int),
    bitmaskIsSet aidl.mode 0 = true →
    directionMedia role typ ≠ none →
    ((∀ l, aidl2legacy_AudioGainConfig_audio_gain_config
        inMaskCount outMaskCount aidl role typ = some l →
        aidl.values.length = 1)
    ∧ (aidl.values.length ≠ 1 →
        aidl2legacy_AudioGainConfig_audio_gain_config
          inMaskCount outMaskCount aidl role typ = none)) := by
  intro inC outC aidl role typ hj _
  have hfail : aidl.values.length ≠ 1 →
      aidl2legacy_AudioGainConfig_audio_gain_config inC outC aidl role typ = none := by
    intro hne
    unfold aidl2legacy_AudioGainConfig_audio_gain_config
    cases hmode : aidl2legacy_int32_t_audio_gain_mode_t aidl.mode with
    | none => simp [hmode]
    | some mo =>
      cases hdir : directionMedia role typ with
      | none => simp [hmode, hdir]
      | some dir =>
        simp only [hmode, hdir, Option.bind_eq_bind, Option.some_bind, hj, if_true]
        rw [if_pos (Or.inl hne)]
  refine ⟨?_, hfail⟩
  intro l hl
  by_contra hne
  rw [hfail hne] at hl
  exact Option.noConfusion hl

/-- Witness for C5: with the joint bit set and an empty values sequence the
conversion fails, for the valid pair role=SOURCE, type=DEVICE. -/
theorem gain_config_joint_witness :
    aidl2legacy_AudioGainConfig_audio_gain_config (fun _ => 2) (fun _ => 2)
      ⟨0, 1, 0, [], 0⟩ 1 1 = none :=
  (gain_config_joint_expects_one_value (fun _ => 2) (fun _ => 2)
    ⟨0, 1, 0, [], 0⟩ 1 1 (by decide) (by decide)).2 (by decide)

/-- Claim C7: when the wire configMask has the GAIN bit (index 3) set,
aidl2legacy_AudioPortConfig_audio_port_config fails — in this source the
config-mask table itself rejects the GAIN bit, so the conversion fails for
every gain payload and in particular whenever the gain value count is out of
range; when the configMask does not have the GAIN bit set, the conversion
never reads the wire gain field (the result is unchanged under any
replacement of it) and never writes the legacy gain field (the result keeps
the initial contents of the legacy struct there). -/
theorem port_config_gain_bit_behavior :
    (∀ (inC outC : Nat → Nat) (init : audio_port_config) (aidl : AudioPortConfig),
      bitmaskIsSet aidl.configMask 3 = true →
      aidl2legacy_AudioPortConfig_audio_port_config inC outC init aidl = none)
    ∧ (∀ (inC outC : Nat → Nat) (init : audio_port_config) (aidl : AudioPortConfig)
        (g2 : AudioGainConfig),
      bitmaskIsSet aidl.configMask 3 = false →
      aidl2legacy_AudioPortConfig_audio_port_config inC outC init
        { aidl with gain := g2 }
        = aidl2legacy_AudioPortConfig_audio_port_config inC outC init aidl)
    ∧ (∀ (inC outC : Nat → Nat) (init : audio_port_config) (aidl : AudioPortConfig)
        (l : audio_port_config),
      bitmaskIsSet aidl.configMask 3 = false →
      aidl2legacy_AudioPortConfig_audio_port_config inC outC init aidl = some l →
      l.gain = init.gain) := by
  refine ⟨?_, ?_, ?_⟩
  · intro inC outC init aidl hg
    have hcm : aidl2legacy_int32_t_config_mask aidl.configMask = none := by
      unfold aidl2legacy_int32_t_config_mask aidlToLegacyMask
      rw [convertBitmask_none_iff]
      refine ⟨3, ?_, by decide⟩
      simpa [bitmaskIsSet] using hg
    unfold aidl2legacy_AudioPortConfig_audio_port_config
    cases h1 : aidl2legacy_AudioPortRole_audio_port_role_t aidl.role <;>
      cases h2 : aidl2legacy_AudioPortType_audio_port_type_t aidl.type <;>
        simp [h1, h2, hcm]
  · intro inC outC init aidl g2 hg
    unfold aidl2legacy_AudioPortConfig_audio_port_config
    simp [hg]
  · intro inC outC init aidl l hg hl
    unfold aidl2legacy_AudioPortConfig_audio_port_config at hl
    simp only [hg, Bool.false_eq_true, if_false, Option.bind_eq_bind,
      Option.some_bind] at hl
    rw [Option.bind_eq_some] at hl
    obtain ⟨r1, h1, hl⟩ := hl
    rw [Option.bind_eq_some] at hl
    obtain ⟨t1, h2, hl⟩ := hl
    rw [Option.bind_eq_some] at hl
    obtain ⟨cm, h3, hl⟩ := hl
    split at hl <;> split at hl <;>
      (repeat (rw [Option.bind_eq_some] at hl; obtain ⟨_, -, hl⟩ := hl)) <;>
      (injection hl with h7; rw [← h7])

/-- Witness for C7: a wire port config whose configMask is exactly the GAIN
bit (8) fails to convert. -/
theorem port_config_gain_bit_witness :
    aidl2legacy_AudioPortConfig_audio_port_config (fun _ => 2) (fun _ => 2) default
      { id := 0, role := 0, type := 0, configMask := 8, sampleRate := 0,
        channelMask := 0, format := 0, gain := default, flags := default,
        ext := AudioPortConfigExt.nothing false } = none :=
  port_config_gain_bit_behavior.1 (fun _ => 2) (fun _ => 2) default
    { id := 0, role := 0, type := 0, configMask := 8, sampleRate := 0,
      channelMask := 0, format := 0, gain := default, flags := default,
      ext := AudioPortConfigExt.nothing false } (by decide)

/-- Claim C8: a wire patch with more sinks (or sources) than
AUDIO_PATCH_PORTS_MAX fails the whole aidl2legacy conversion rather than
truncating, and a legacy patch whose num_sinks or num_sources exceeds the
maximum makes the legacy2aidl conversion fail. -/
theorem patch_port_count_over_max_fails :
    (∀ (inC outC : Nat → Nat) (aidl : AudioPatch),
      AUDIO_PATCH_PORTS_MAX < aidl.sinks.length →
      aidl2legacy_AudioPatch_audio_patch inC outC aidl = none)
    ∧ (∀ (inC outC : Nat → Nat) (aidl : AudioPatch),
      AUDIO_PATCH_PORTS_MAX < aidl.sources.length →
      aidl2legacy_AudioPatch_audio_patch inC outC aidl = none)
    ∧ (∀ (inC outC : Nat → Nat) (legacy : audio_patch),
      AUDIO_PATCH_PORTS_MAX < legacy.num_sinks ∨
        AUDIO_PATCH_PORTS_MAX < legacy.num_sources →
      legacy2aidl_audio_patch_AudioPatch inC outC legacy = none) := by
  refine ⟨?_, ?_, ?_⟩
  · intro inC outC aidl h
    unfold aidl2legacy_AudioPatch_audio_patch
    simp [h]
  · intro inC outC aidl h
    unfold aidl2legacy_AudioPatch_audio_patch
    by_cases h1 : AUDIO_PATCH_PORTS_MAX < aidl.sinks.length
    · simp [h1]
    · cases hmap : aidl.sinks.mapM
        (aidl2legacy_AudioPortConfig_audio_port_config inC outC default) with
      | none => simp [h1, hmap]
      | some s => simp [h1, hmap, h]
  · intro inC outC legacy h
    unfold legacy2aidl_audio_patch_AudioPatch
    rcases h with h | h
    · simp [h]
    · by_cases h1 : AUDIO_PATCH_PORTS_MAX < legacy.num_sinks
      · simp [h1]
      · cases hmap : (List.range legacy.num_sinks).mapM (fun i =>
          legacy2aidl_audio_port_config_AudioPortConfig inC outC
            (legacy.sinks.getD i default)) with
        | none => simp [h1, hmap]
        | some s => simp [h1, hmap, h]

/-- Witness for C8: a wire patch with 17 sinks fails to convert. -/
theorem patch_over_max_witness :
    aidl2legacy_AudioPatch_audio_patch (fun _ => 2) (fun _ => 2)
      { id := 0, sinks := List.replicate 17 default, sources := [] } = none :=
  patch_port_count_over_max_fails.1 (fun _ => 2) (fun _ => 2)
    { id := 0, sinks := List.replicate 17 default, sources := [] } (by decide)

end AidlConversion
